import Mathlib

/-!
Shallow embedding of the horiba-pyinterface session controller
(`horibacontroller.py`, `optosigmacontroller.py`, `thorlabscontroller.py`,
`horibaprocedure.py`) and proofs of the frozen claims about it.

Hardware is modelled by oracles: a `Bool`-valued success function per issued
command (a `false` answer models the underlying SDK call raising an
exception) together with the values returned by the read-style calls.
Python floats are modelled as rationals; the Python `%` on floats with a
positive modulus is `qmod` below; Python `int()` on a nonnegative float is
`Int.floor`.
-/

/-- Python float modulo for a positive modulus: `a % m = a - m * floor (a / m)`. -/
def qmod (a m : ℚ) : ℚ := a - m * ⌊a / m⌋

/-!
## OptoSigma rotation stage (`optosigmacontroller.py`)
-/

/-- Result of a hardware read that may raise: `val a` is a returned value,
`raises` models the call throwing an exception. -/
inductive HwRead (α : Type) where
  | val (a : α)
  | raises
deriving Repr, DecidableEq

/-- Mutable state of an `OptoSigmaController` instance:
`_is_connected`, whether `self.controller` is non-`None`, and
`_current_position` in pulses (`none` models Python `None`). -/
structure OptoState where
  is_conn_flag : Bool
  has_controller : Bool
  current_position : Option ℤ
deriving Repr, DecidableEq

/-- Fresh `OptoSigmaController`: disconnected, `_current_position = 0`. -/
def optoInit : OptoState := ⟨false, false, some 0⟩

/-- The `is_connected` property: `self._is_connected and self.controller is not None`. -/
def optoConnected (s : OptoState) : Bool := s.is_conn_flag && s.has_controller

/-- OSMS-60YAW `degree_per_pulse` = 0.0025 deg per pulse. -/
def degreePerPulse : ℚ := 1 / 400

/-- `max_degree` = 360.0. -/
def maxDegree : ℚ := 360

/-- Pulses per full turn, `max_degree / degree_per_pulse` = 144000. -/
def pulsesPerTurn : ℤ := 144000

/-- `_update_current_position`: guarded by `_is_connected and controller`;
a raising read is caught and logged, leaving `_current_position` unchanged;
otherwise the returned value (possibly `None`) is stored. -/
def optoUpdatePosition (s : OptoState) (read : HwRead (Option ℤ)) : OptoState :=
  if s.is_conn_flag && s.has_controller then
    match read with
    | .val v => { s with current_position := v }
    | .raises => s
  else s

/-- The `degree` getter: returns `0.0` when disconnected; otherwise refreshes
`_current_position`, returns `0.0` if it is `None`, else
`(_current_position % (max_degree / degree_per_pulse)) * degree_per_pulse`.
The arithmetic on a `None` position raises and is caught, returning `0.0`. -/
def optoDegreeGet (s : OptoState) (read : HwRead (Option ℤ)) : ℚ × OptoState :=
  if optoConnected s then
    let s1 := optoUpdatePosition s read
    match s1.current_position with
    | none => (0, s1)
    | some p => (((p % pulsesPerTurn : ℤ) : ℚ) * degreePerPulse, s1)
  else (0, s)

/-- Target pulse count in the `degree` setter:
`int((target_degree % max_degree) / degree_per_pulse)`; the reduced angle is
nonnegative, so Python `int()` truncation is `Int.floor`. -/
def optoTargetPulses (target : ℚ) : ℤ := ⌊qmod target maxDegree / degreePerPulse⌋

/-- The `degree` setter: no-op when disconnected; reduces the target modulo
360, converts to pulses, commands the move (`moveOk` is whether the two
hardware calls succeed); on success it stores the target pulse count, and any
exception is caught and only logged (never re-raised). -/
def optoDegreeSet (s : OptoState) (target : ℚ) (moveOk : Bool) : OptoState :=
  if optoConnected s then
    if moveOk then { s with current_position := some (optoTargetPulses target) }
    else s
  else s

/-- `connect()`: on success the handle exists, `_is_connected := True`, and
`_update_current_position` runs with the given read; on failure (the
constructor raising) `_is_connected := False` and the handle is unchanged. -/
def optoConnect (s : OptoState) (connectOk : Bool) (read : HwRead (Option ℤ)) :
    OptoState × Bool :=
  if connectOk then
    (optoUpdatePosition { s with is_conn_flag := true, has_controller := true } read, true)
  else ({ s with is_conn_flag := false }, false)

/-!
## Thorlabs K10CR2 rotation stage (`thorlabscontroller.py`)
-/

/-- Mutable state of a `ThorlabsK10CR2Controller`: `_is_connected`, whether
`_device` is non-`None`, the cached `_last_degree`, and the physical device
position (a `System.Decimal` read back by `_read_degree`). -/
structure ThorState where
  is_conn_flag : Bool
  has_device : Bool
  last_degree : ℚ
  device_position : ℚ
deriving Repr, DecidableEq

/-- The `is_connected` property: `self._is_connected and self._device is not None`. -/
def thorConnected (s : ThorState) : Bool := s.is_conn_flag && s.has_device

/-- `_read_degree`: `float(str(self._device.Position)) % 360.0`. -/
def thorReadDegree (s : ThorState) : ℚ := qmod s.device_position 360

/-- The `degree` getter: when disconnected it returns `_last_degree`; when
connected it reads the device position modulo 360 and caches it; a raising
read is caught and the cached `_last_degree` is returned unchanged. -/
def thorDegreeGet (s : ThorState) (readOk : Bool) : ℚ × ThorState :=
  if thorConnected s then
    if readOk then
      (thorReadDegree s, { s with last_degree := thorReadDegree s })
    else (s.last_degree, s)
  else (s.last_degree, s)

/-- The `degree` setter: no-op when disconnected; reduces the target modulo
360 and issues `MoveTo`; on success the device sits at the reduced target and
`_last_degree` is set to it; a raising move is caught and only logged. -/
def thorDegreeSet (s : ThorState) (target : ℚ) (moveOk : Bool) : ThorState :=
  if thorConnected s then
    if moveOk then
      { s with device_position := qmod target 360, last_degree := qmod target 360 }
    else s
  else s

/-- `home()`: no-op when disconnected; on success the stage is at 0 and
`_last_degree := 0.0`; a raising home is caught and only logged. -/
def thorHome (s : ThorState) (homeOk : Bool) : ThorState :=
  if thorConnected s then
    if homeOk then { s with device_position := 0, last_degree := 0 }
    else s
  else s

/-- Fresh `ThorlabsK10CR2Controller`: disconnected, `_last_degree = 0.0`. -/
def thorInit (pos : ℚ) : ThorState := ⟨false, false, 0, pos⟩

/-!
## Wavenumber labeling (`horibaprocedure.py`, `execute`)
-/

/-- Wavenumber attached to each emitted sample in
`HoribaSpectrumProcedure.execute`:
`(1.0 / self.excitation_wavelength - 1.0 / x) * 1e7` computed inside
`try/except` — a zero divisor raises `ZeroDivisionError`, which is caught and
yields `None` instead of a number. -/
def wavenumber (excitation x : ℚ) : Option ℚ :=
  if excitation = 0 ∨ x = 0 then none
  else some ((1 / excitation - 1 / x) * 10 ^ 7)

/-!
## Busy-wait loops (`_wait_for_mono` / `_wait_for_ccd`)
-/

/-- The body of `_wait_for_mono` / `_wait_for_ccd`:
`busy = True; while busy: busy = await is_busy(); sleep(0.1)`. There is no
deadline, no counter and no exception raised by the loop itself — the only
exit is a poll that returns `False`. `pollLoop busy i f` runs the loop for at
most `f` further polls starting from poll index `i`, returning `some j` when
the poll at index `j` came back not-busy, and `none` when the fuel ran out
with every poll still busy. -/
def pollLoop (busy : ℕ → Bool) (i : ℕ) : ℕ → Option ℕ
  | 0 => none
  | f + 1 => if busy i then pollLoop busy (i + 1) f else some i

/-- `_wait_for_mono` / `_wait_for_ccd` return immediately when the device
handle is `None`; otherwise they run the poll loop. -/
def waitForDevice (present : Bool) (busy : ℕ → Bool) (fuel : ℕ) : Option ℕ :=
  if present then pollLoop busy 0 fuel else some 0

/-- The wait loop finishes within some finite number of polls. -/
def WaitTerminates (busy : ℕ → Bool) : Prop :=
  ∃ fuel, (pollLoop busy 0 fuel).isSome = true

/-!
## HoribaController (`horibacontroller.py`)
-/

/-- Hardware commands issued by `HoribaController`. A command is the unit at
which the embedded hardware oracle decides success (`true`) or a raised
exception (`false`); read-style calls whose returned value matters carry
their result in the `Hw` record below. -/
inductive Cmd where
  | dmStart
  | monoOpen
  | ccdOpen
  | monoInitialize
  | setMirrorPosition
  | getConfiguration
  | setAcquisitionCount (n : ℕ)
  | setTimerResolution
  | setAcquisitionFormat
  | setRegionOfInterest
  | stageConnect
  | setTurretGrating (g : Option ℕ)
  | moveToTargetWavelength (w : ℚ)
  | setCenterWavelength (w : ℚ)
  | setXAxisConversionType
  | setSlitPosition (p : ℚ)
  | setExposureTime (ms : ℚ)
  | setGain (g : ℕ)
  | setSpeed (s : ℕ)
  | stageMoveTo (pulses : ℤ)
  | getCurrentWavelength
  | getAcquisitionReady
  | acquisitionStart
  | getAcquisitionData
  | stageDisconnect
  | ccdClose
  | monoClose
  | dmStop
deriving Repr, DecidableEq

/-- Commands issued only by `_ensure_initialized` (device discovery, open and
one-time initialization). -/
def isConnectCmd : Cmd → Bool
  | .dmStart | .monoOpen | .ccdOpen | .monoInitialize | .setMirrorPosition
  | .getConfiguration | .setAcquisitionCount _ | .setTimerResolution
  | .setAcquisitionFormat | .setRegionOfInterest | .stageConnect => true
  | _ => false

/-- Hardware set-commands issued by `_configure_for_acquisition`. -/
def isSetCmd : Cmd → Bool
  | .setTurretGrating _ | .moveToTargetWavelength _ | .setCenterWavelength _
  | .setXAxisConversionType | .setSlitPosition _ | .setExposureTime _
  | .setGain _ | .setSpeed _ | .stageMoveTo _ => true
  | _ => false

/-- The hardware oracle: per-command success, device discovery results, the
`is_open` / `is_initialized` probes, the `get_acquisition_ready` answer and
the position read performed while connecting the rotation stage. -/
structure Hw where
  ok : Cmd → Bool
  monosFound : Bool
  ccdsFound : Bool
  monoIsOpen : Bool
  ccdIsOpen : Bool
  monoIsInitialized : Bool
  acqReady : Bool
  stageRead : HwRead (Option ℤ)

/-- The request passed to `_configure_for_acquisition` via `**kwargs`: the
`kwargs.get` defaults of the source are already applied here. -/
structure Request where
  center_wavelength : ℚ := 780
  exposure : ℚ := 1
  grating : Option ℕ := none
  slit_position : ℚ := 1 / 10
  gain : ℕ := 0
  speed : ℕ := 2
  rotation_angle : Option ℚ := none
deriving Repr, DecidableEq

/-- Mutable state of a `HoribaController` instance: the `_is_initialized` /
`_devices_opened` flags, whether `self.mono` / `self.ccd` have been bound by
discovery, the optional rotation stage with its enable flag, and the seven
`prev_*` fields that cache the last applied configuration. -/
structure CtrlState where
  is_initialized : Bool
  devices_opened : Bool
  mono_present : Bool
  ccd_present : Bool
  enable_rotation_stage : Bool
  stage : Option OptoState
  prev_center_wavelength : Option ℚ
  prev_exposure : Option ℚ
  prev_grating : Option ℕ
  prev_slit_position : Option ℚ
  prev_gain : Option ℕ
  prev_speed : Option ℕ
  prev_rotation_angle : Option ℚ
deriving Repr, DecidableEq

/-- Fresh `HoribaController.__init__` state: nothing initialized, all caches
`None`; the rotation stage object exists iff `enable_rotation_stage`. -/
def ctrlInit (enableStage : Bool) : CtrlState :=
  { is_initialized := false
    devices_opened := false
    mono_present := false
    ccd_present := false
    enable_rotation_stage := enableStage
    stage := if enableStage then some optoInit else none
    prev_center_wavelength := none
    prev_exposure := none
    prev_grating := none
    prev_slit_position := none
    prev_gain := none
    prev_speed := none
    prev_rotation_angle := none }

/-- Issue a straight-line sequence of commands, stopping at the first one the
hardware fails; returns the issued prefix (including the failing command) and
whether all of them succeeded. -/
def runSeq (hw : Hw) : List Cmd → List Cmd × Bool
  | [] => ([], true)
  | c :: cs =>
    if hw.ok c then
      let r := runSeq hw cs
      (c :: r.1, r.2)
    else ([c], false)

/-- The one-time device-open block of `_ensure_initialized` (lines 69-106):
conditional opens and initialization followed by the fixed detector setup
sequence. Only issued when `_devices_opened` is still false. -/
def openCmds (hw : Hw) : List Cmd :=
  (if !hw.monoIsOpen then [Cmd.monoOpen] else []) ++
  (if !hw.ccdIsOpen then [Cmd.ccdOpen] else []) ++
  (if !hw.monoIsInitialized then [Cmd.monoInitialize] else []) ++
  [Cmd.setMirrorPosition, Cmd.getConfiguration, Cmd.setAcquisitionCount 1,
   Cmd.setTimerResolution, Cmd.setAcquisitionFormat, Cmd.setRegionOfInterest]

/-- `_ensure_initialized`: early return when `_is_initialized`; otherwise the
whole body runs inside `try/except` — any raise is caught, `_is_initialized`
is set to `False` and `False` is returned, with all mutations made before the
raise kept. A failed rotation-stage connect does not raise (it returns
`False` and the controller continues without the stage). -/
def ensureInitialized (hw : Hw) (s : CtrlState) : List Cmd × CtrlState × Bool :=
  if s.is_initialized then ([], s, true)
  else if !hw.ok Cmd.dmStart then
    ([Cmd.dmStart], { s with is_initialized := false }, false)
  else if !(hw.monosFound && hw.ccdsFound) then
    ([Cmd.dmStart], { s with is_initialized := false }, false)
  else
    let s1 := { s with mono_present := true, ccd_present := true }
    let opened := if s1.devices_opened then ([], true) else runSeq hw (openCmds hw)
    if !opened.2 then
      (Cmd.dmStart :: opened.1, { s1 with is_initialized := false }, false)
    else
      let s2 := { s1 with devices_opened := true }
      let connected :=
        match s2.stage with
        | some ost =>
          if s2.enable_rotation_stage && !optoConnected ost then
            let c := optoConnect ost (hw.ok Cmd.stageConnect) hw.stageRead
            ([Cmd.stageConnect], { s2 with stage := some c.1 })
          else ([], s2)
        | none => ([], s2)
      (Cmd.dmStart :: opened.1 ++ connected.1,
       { connected.2 with is_initialized := true }, true)

/-- One `(trace, state, succeeded)` step of `_configure_for_acquisition`. -/
def seqB (a b : CtrlState → List Cmd × CtrlState × Bool) (s : CtrlState) :
    List Cmd × CtrlState × Bool :=
  let ra := a s
  if ra.2.2 then
    let rb := b ra.2.1
    (ra.1 ++ rb.1, rb.2.1, rb.2.2)
  else ra

/-- Grating block: `if grating != self.prev_grating`, set it, wait, commit. -/
def gratingBlk (hw : Hw) (r : Request) (s : CtrlState) : List Cmd × CtrlState × Bool :=
  if r.grating ≠ s.prev_grating then
    if hw.ok (Cmd.setTurretGrating r.grating) then
      ([Cmd.setTurretGrating r.grating], { s with prev_grating := r.grating }, true)
    else ([Cmd.setTurretGrating r.grating], s, false)
  else ([], s, true)

/-- Wavelength block: move the monochromator, program the detector center
wavelength, commit `prev_center_wavelength`, then set the x-axis conversion
source (committed before this last call, as in the source). -/
def wavelengthBlk (hw : Hw) (r : Request) (s : CtrlState) : List Cmd × CtrlState × Bool :=
  if some r.center_wavelength ≠ s.prev_center_wavelength then
    if !hw.ok (Cmd.moveToTargetWavelength r.center_wavelength) then
      ([Cmd.moveToTargetWavelength r.center_wavelength], s, false)
    else if !hw.ok (Cmd.setCenterWavelength r.center_wavelength) then
      ([Cmd.moveToTargetWavelength r.center_wavelength,
        Cmd.setCenterWavelength r.center_wavelength], s, false)
    else
      let s1 := { s with prev_center_wavelength := some r.center_wavelength }
      if !hw.ok Cmd.setXAxisConversionType then
        ([Cmd.moveToTargetWavelength r.center_wavelength,
          Cmd.setCenterWavelength r.center_wavelength,
          Cmd.setXAxisConversionType], s1, false)
      else
        ([Cmd.moveToTargetWavelength r.center_wavelength,
          Cmd.setCenterWavelength r.center_wavelength,
          Cmd.setXAxisConversionType], s1, true)
  else ([], s, true)

/-- Slit block. -/
def slitBlk (hw : Hw) (r : Request) (s : CtrlState) : List Cmd × CtrlState × Bool :=
  if some r.slit_position ≠ s.prev_slit_position then
    if hw.ok (Cmd.setSlitPosition r.slit_position) then
      ([Cmd.setSlitPosition r.slit_position],
       { s with prev_slit_position := some r.slit_position }, true)
    else ([Cmd.setSlitPosition r.slit_position], s, false)
  else ([], s, true)

/-- Exposure block: the exposure is given in seconds and scaled by 1000 at
the command boundary (`set_exposure_time(exposure * 1e3)`). -/
def exposureBlk (hw : Hw) (r : Request) (s : CtrlState) : List Cmd × CtrlState × Bool :=
  if some r.exposure ≠ s.prev_exposure then
    if hw.ok (Cmd.setExposureTime (r.exposure * 1000)) then
      ([Cmd.setExposureTime (r.exposure * 1000)],
       { s with prev_exposure := some r.exposure }, true)
    else ([Cmd.setExposureTime (r.exposure * 1000)], s, false)
  else ([], s, true)

/-- Gain block. -/
def gainBlk (hw : Hw) (r : Request) (s : CtrlState) : List Cmd × CtrlState × Bool :=
  if some r.gain ≠ s.prev_gain then
    if hw.ok (Cmd.setGain r.gain) then
      ([Cmd.setGain r.gain], { s with prev_gain := some r.gain }, true)
    else ([Cmd.setGain r.gain], s, false)
  else ([], s, true)

/-- Speed block. -/
def speedBlk (hw : Hw) (r : Request) (s : CtrlState) : List Cmd × CtrlState × Bool :=
  if some r.speed ≠ s.prev_speed then
    if hw.ok (Cmd.setSpeed r.speed) then
      ([Cmd.setSpeed r.speed], { s with prev_speed := some r.speed }, true)
    else ([Cmd.setSpeed r.speed], s, false)
  else ([], s, true)

/-- Guard of the rotation block: `rotation_angle is not None and
self.enable_rotation_stage and self.rotation_stage and
self.rotation_stage.is_connected and rotation_angle != self.prev_rotation_angle`. -/
def rotCond (r : Request) (s : CtrlState) : Bool :=
  match r.rotation_angle, s.stage with
  | some a, some ost =>
    s.enable_rotation_stage && optoConnected ost &&
      decide ((some a : Option ℚ) ≠ s.prev_rotation_angle)
  | _, _ => false

/-- Rotation block: assigns `self.rotation_stage.degree = rotation_angle`
(whose setter catches every exception internally) and then unconditionally
commits `prev_rotation_angle`, because the setter never signals failure. -/
def rotationBlk (hw : Hw) (r : Request) (s : CtrlState) : List Cmd × CtrlState × Bool :=
  match r.rotation_angle, s.stage with
  | some a, some ost =>
    if s.enable_rotation_stage && optoConnected ost &&
        decide ((some a : Option ℚ) ≠ s.prev_rotation_angle) then
      let ost1 := optoDegreeSet ost a (hw.ok (Cmd.stageMoveTo (optoTargetPulses a)))
      ([Cmd.stageMoveTo (optoTargetPulses a)],
       { s with stage := some ost1, prev_rotation_angle := some a }, true)
    else ([], s, true)
  | _, _ => ([], s, true)

/-- Final read of `_configure_for_acquisition`: `get_current_wavelength`. -/
def finalBlk (hw : Hw) (s : CtrlState) : List Cmd × CtrlState × Bool :=
  if hw.ok Cmd.getCurrentWavelength then ([Cmd.getCurrentWavelength], s, true)
  else ([Cmd.getCurrentWavelength], s, false)

/-- `_configure_for_acquisition` (lines 124-188): the seven diffed blocks in
source order followed by the final wavelength read. Any raise aborts the
remainder and propagates (`false`), keeping mutations already made. The busy
waits after each command are modelled as terminating (see `pollLoop` for the
loops themselves). -/
def configureForAcquisition (hw : Hw) (r : Request) : CtrlState → List Cmd × CtrlState × Bool :=
  seqB (gratingBlk hw r) (seqB (wavelengthBlk hw r) (seqB (slitBlk hw r)
    (seqB (exposureBlk hw r) (seqB (gainBlk hw r) (seqB (speedBlk hw r)
      (seqB (rotationBlk hw r) (finalBlk hw)))))))

/-- `acquire_spectrum` (lines 190-213): ensure initialization (re-raising as
`RuntimeError` when it failed), configure, check `get_acquisition_ready`
(raising when not ready), start the acquisition and fetch the data. -/
def acquireSpectrum (hw : Hw) (s : CtrlState) (r : Request) : List Cmd × CtrlState × Bool :=
  let e := ensureInitialized hw s
  if !e.2.2 then (e.1, e.2.1, false)
  else
    let c := configureForAcquisition hw r e.2.1
    if !c.2.2 then (e.1 ++ c.1, c.2.1, false)
    else if !hw.ok Cmd.getAcquisitionReady then
      (e.1 ++ c.1 ++ [Cmd.getAcquisitionReady], c.2.1, false)
    else if !hw.acqReady then
      (e.1 ++ c.1 ++ [Cmd.getAcquisitionReady], c.2.1, false)
    else if !hw.ok Cmd.acquisitionStart then
      (e.1 ++ c.1 ++ [Cmd.getAcquisitionReady, Cmd.acquisitionStart], c.2.1, false)
    else if !hw.ok Cmd.getAcquisitionData then
      (e.1 ++ c.1 ++ [Cmd.getAcquisitionReady, Cmd.acquisitionStart,
        Cmd.getAcquisitionData], c.2.1, false)
    else
      (e.1 ++ c.1 ++ [Cmd.getAcquisitionReady, Cmd.acquisitionStart,
        Cmd.getAcquisitionData], c.2.1, true)

/-- `shutdown` (lines 312-325): `OptoSigmaController.disconnect` first (its
close is wrapped in `try/except`, so a failure there never propagates; it
always clears the connection flag and drops the handle), then the unguarded
straight-line `ccd.close()`, `mono.close()`, `dm.stop()` — a raise in any of
these propagates and skips the rest. -/
def shutdown (hw : Hw) (s : CtrlState) : List Cmd × CtrlState × Bool :=
  let stagePart :=
    match s.stage with
    | some ost =>
      if s.enable_rotation_stage then
        let ost1 : OptoState :=
          { ost with is_conn_flag := false, has_controller := false }
        ((if ost.has_controller then [Cmd.stageDisconnect] else []),
         { s with stage := some ost1 })
      else ([], s)
    | none => ([], s)
  let ccdCmds := if stagePart.2.ccd_present && stagePart.2.devices_opened
    then [Cmd.ccdClose] else []
  let monoCmds := if stagePart.2.mono_present && stagePart.2.devices_opened
    then [Cmd.monoClose] else []
  let stopCmds := if stagePart.2.is_initialized then [Cmd.dmStop] else []
  let r := runSeq hw (ccdCmds ++ monoCmds ++ stopCmds)
  (stagePart.1 ++ r.1, stagePart.2, r.2)

/-- `get_rotation_angle` (`horibacontroller.py` lines 274-281): returns `0.0`
when the stage is disabled, absent or disconnected, else the stage degree. -/
def getRotationAngle (s : CtrlState) (read : HwRead (Option ℤ)) : ℚ :=
  match s.stage with
  | none => 0
  | some ost =>
    if !s.enable_rotation_stage then 0
    else if !optoConnected ost then 0
    else (optoDegreeGet ost read).1

/-!
## Concrete hardware oracles, controller states and requests used in the
concrete instantiations below
-/

def hwAllOk : Hw :=
  ⟨fun _ => true, true, true, false, false, false, true, HwRead.val (some 0)⟩

def hwStartFails : Hw :=
  ⟨fun c => match c with | Cmd.acquisitionStart => false | _ => true,
   true, true, false, false, false, true, HwRead.val (some 0)⟩

def rqA : Request := { grating := some 2 }

def rqB : Request := { grating := some 2, exposure := 2 }

def sInitOnly : CtrlState := { ctrlInit false with is_initialized := true }

def hwGainFails : Hw :=
  ⟨fun c => match c with | Cmd.setGain _ => false | _ => true,
   true, true, false, false, false, true, HwRead.val (some 0)⟩

def sRotCex : CtrlState :=
  { is_initialized := true, devices_opened := true, mono_present := true,
    ccd_present := true, enable_rotation_stage := true,
    stage := some ⟨true, true, some 0⟩,
    prev_center_wavelength := some 780, prev_exposure := some 1,
    prev_grating := none, prev_slit_position := some 1,
    prev_gain := some 0, prev_speed := some 2, prev_rotation_angle := none }

def rqRot : Request :=
  { center_wavelength := 780, exposure := 1, grating := none, slit_position := 1,
    gain := 0, speed := 2, rotation_angle := some 90 }

def hwRotFails : Hw :=
  ⟨fun c => match c with | Cmd.stageMoveTo _ => false | _ => true,
   true, true, false, false, false, true, HwRead.val (some 0)⟩

def sFullDev : CtrlState :=
  { is_initialized := true, devices_opened := true, mono_present := true,
    ccd_present := true, enable_rotation_stage := true,
    stage := some ⟨true, true, some 0⟩,
    prev_center_wavelength := none, prev_exposure := none, prev_grating := none,
    prev_slit_position := none, prev_gain := none, prev_speed := none,
    prev_rotation_angle := none }

def hwCcdCloseFails : Hw :=
  ⟨fun c => match c with | Cmd.ccdClose => false | _ => true,
   true, true, false, false, false, true, HwRead.val (some 0)⟩

/-!
## Theorems
-/

theorem qmod_eq_fract_mul (a m : ℚ) (hm : m ≠ 0) :
    qmod a m = m * Int.fract (a / m) := by
  unfold qmod Int.fract
  field_simp

theorem qmod_nonneg (a m : ℚ) (hm : 0 < m) : 0 ≤ qmod a m := by
  rw [qmod_eq_fract_mul a m hm.ne']
  exact mul_nonneg hm.le (Int.fract_nonneg _)

theorem qmod_lt (a m : ℚ) (hm : 0 < m) : qmod a m < m := by
  rw [qmod_eq_fract_mul a m hm.ne']
  calc m * Int.fract (a / m) < m * 1 :=
        (mul_lt_mul_left hm).mpr (Int.fract_lt_one _)
    _ = m := mul_one m

theorem qmod_eq_self (a m : ℚ) (h0 : 0 ≤ a) (h : a < m) : qmod a m = a := by
  have hm : 0 < m := lt_of_le_of_lt h0 h
  have hfloor : ⌊a / m⌋ = 0 := by
    rw [Int.floor_eq_zero_iff]
    constructor
    · exact div_nonneg h0 hm.le
    · rw [div_lt_one hm]; exact h
  simp [qmod, hfloor]

theorem pollLoop_isSome_iff (busy : ℕ → Bool) :
    ∀ f i, (pollLoop busy i f).isSome = true ↔ ∃ k, k < f ∧ busy (i + k) = false := by
  intro f
  induction f with
  | zero => intro i; simp [pollLoop]
  | succ n ih =>
    intro i
    by_cases h : busy i
    · rw [pollLoop]
      simp only [h, if_true, ih (i + 1)]
      constructor
      · rintro ⟨k, hk, hb⟩
        exact ⟨k + 1, by omega, by rw [show i + (k + 1) = i + 1 + k by omega]; exact hb⟩
      · rintro ⟨k, hk, hb⟩
        cases k with
        | zero => rw [Nat.add_zero] at hb; rw [h] at hb; exact absurd hb (by simp)
        | succ k =>
          exact ⟨k, by omega, by rw [show i + 1 + k = i + (k + 1) by omega]; exact hb⟩
    · have hb : busy i = false := by simpa using h
      rw [pollLoop]
      simp only [hb, Bool.false_eq_true, if_false, Option.isSome_some, true_iff]
      exact ⟨0, by omega, by simpa using hb⟩

/-- Claim C2 (amended): the busy-wait loops `_wait_for_mono` / `_wait_for_ccd`
have no deadline at all — the loop finishes exactly when the busy predicate
eventually polls false, and on a predicate that never becomes false it polls
forever; no `BusyTimeout` (or any other failure) is ever produced, because the
loop body contains nothing but the poll and a sleep. -/
theorem wait_terminates_iff_eventually_ready (busy : ℕ → Bool) :
    WaitTerminates busy ↔ ∃ n, busy n = false := by
  unfold WaitTerminates
  constructor
  · rintro ⟨f, hf⟩
    obtain ⟨k, _, hb⟩ := (pollLoop_isSome_iff busy f 0).mp hf
    exact ⟨k, by simpa using hb⟩
  · rintro ⟨n, hn⟩
    exact ⟨n + 1, (pollLoop_isSome_iff busy (n + 1) 0).mpr ⟨n, by omega, by simpa using hn⟩⟩

/-- Claim C2 counterexample: on the always-busy predicate the wait loop never
finishes, however many polls are allowed — it neither returns nor fails with
`BusyTimeout` (the loop has no timeout mechanism), refuting the claim that the
wait is bounded for every busy predicate. -/
theorem wait_never_times_out_cex : ¬ WaitTerminates (fun _ => true) := by
  rintro ⟨f, hf⟩
  obtain ⟨k, _, hb⟩ := (pollLoop_isSome_iff (fun _ => true) f 0).mp hf
  simp at hb

/-- Claim C7 counterexample: an OptoSigma stage that is disconnected while its
last observed position was 4000 pulses (= 10 degrees, as the second conjunct
computes) returns 0.0 from the degree getter, not the last known angle. -/
theorem opto_disconnected_zero_cex :
    (optoDegreeGet ⟨false, false, some 4000⟩ HwRead.raises).1 = 0 ∧
    (((4000 : ℤ) % pulsesPerTurn : ℤ) : ℚ) * degreePerPulse = 10 := by
  constructor
  · simp [optoDegreeGet, optoConnected]
  · norm_num [pulsesPerTurn, degreePerPulse]

/-- Claim C7 (amended): only the Thorlabs driver returns the cached last-known
angle when disconnected; the OptoSigma degree getter returns 0.0 whenever the
stage is disconnected, whatever position was last observed, and
`HoribaController.get_rotation_angle` likewise returns 0.0 for a disabled or
disconnected stage. -/
theorem disconnected_angle_amended (ts : ThorState) (os : OptoState)
    (s : CtrlState) (r r2 : HwRead (Option ℤ)) (rb : Bool) :
    (thorConnected ts = false → (thorDegreeGet ts rb).1 = ts.last_degree) ∧
    (optoConnected os = false → (optoDegreeGet os r).1 = 0) ∧
    (s.stage = some os → optoConnected os = false → getRotationAngle s r2 = 0) := by
  refine ⟨fun h => ?_, fun h => ?_, fun hs h => ?_⟩
  · simp [thorDegreeGet, h]
  · simp [optoDegreeGet, h]
  · simp [getRotationAngle, hs, h]

/-- Claim C7 witness: a concrete disconnected Thorlabs stage with cached angle
25 returns 25, and a concrete disconnected OptoSigma stage returns 0. -/
theorem disconnected_angle_witness :
    (thorDegreeGet ⟨false, false, 25, 0⟩ true).1 = 25 ∧
    (optoDegreeGet ⟨false, false, some 4000⟩ (HwRead.val (some 7))).1 = 0 := by
  have h := disconnected_angle_amended ⟨false, false, 25, 0⟩ ⟨false, false, some 4000⟩
    (ctrlInit false) (HwRead.val (some 7)) (HwRead.val (some 7)) true
  exact ⟨h.1 rfl, h.2.1 rfl⟩

/-- Claim C8 counterexample: the OptoSigma driver quantizes the normalized
target to whole 0.0025-degree pulses with `int(...)`, so commanding 0.001
degrees commits pulse position 0 and reads back 0.0, although
0.001 mod 360 = 0.001: the read-back angle does not equal a mod 360 for every
requested angle a. -/
theorem opto_quantization_cex :
    (optoDegreeSet ⟨true, true, some 7⟩ (1 / 1000) true).current_position = some 0 ∧
    (optoDegreeGet (optoDegreeSet ⟨true, true, some 7⟩ (1 / 1000) true)
        (HwRead.val (some 0))).1 = 0 ∧
    qmod (1 / 1000) 360 = 1 / 1000 ∧ (0 : ℚ) ≠ 1 / 1000 := by
  have htp : optoTargetPulses (1 / 1000) = 0 := by
    norm_num [optoTargetPulses, qmod, degreePerPulse, maxDegree]
  have hset : optoDegreeSet ⟨true, true, some 7⟩ (1 / 1000) true
      = ⟨true, true, some (optoTargetPulses (1 / 1000))⟩ := rfl
  refine ⟨?_, ?_, ?_, by norm_num⟩
  · rw [hset, htp]
  · rw [hset, htp]
    norm_num [optoDegreeGet, optoUpdatePosition, optoConnected, pulsesPerTurn]
  · norm_num [qmod]

/-- Claim C8 (amended): both drivers normalize the requested angle modulo 360
before commanding the move. The Thorlabs driver commits and reads back exactly
a mod 360; the OptoSigma driver commits the pulse count floor((a mod 360) / 0.0025)
and reads back that count times 0.0025 — a mod 360 rounded down to the pulse
grid, which equals a mod 360 exactly when a falls on the grid (in particular
370 reads back as exactly 10.0 on both, see the witness). -/
theorem angle_normalization_amended (a : ℚ) (ts : ThorState) (os : OptoState)
    (hT : thorConnected ts = true) (hO : optoConnected os = true) :
    (thorDegreeSet ts a true).last_degree = qmod a 360 ∧
    (thorDegreeGet (thorDegreeSet ts a true) true).1 = qmod a 360 ∧
    (optoDegreeSet os a true).current_position = some (optoTargetPulses a) ∧
    (optoDegreeGet (optoDegreeSet os a true)
        (HwRead.val (some (optoTargetPulses a)))).1
      = (optoTargetPulses a : ℚ) * degreePerPulse ∧
    (optoTargetPulses a : ℚ) * degreePerPulse = (⌊qmod a 360 * 400⌋ : ℚ) / 400 := by
  have h0 : (0 : ℚ) < 360 := by norm_num
  have hq0 : 0 ≤ qmod a 360 := qmod_nonneg a 360 h0
  have hqlt : qmod a 360 < 360 := qmod_lt a 360 h0
  have htp : optoTargetPulses a = ⌊qmod a 360 * 400⌋ := by
    unfold optoTargetPulses degreePerPulse maxDegree
    rw [div_eq_mul_inv, one_div, inv_inv]
  have htp0 : (0 : ℤ) ≤ optoTargetPulses a := by
    rw [htp]
    exact Int.floor_nonneg.mpr (by positivity)
  have htplt : optoTargetPulses a < 144000 := by
    rw [htp]
    apply Int.floor_lt.mpr
    push_cast
    nlinarith
  have hmod : optoTargetPulses a % pulsesPerTurn = optoTargetPulses a :=
    Int.emod_eq_of_lt htp0 (by simpa [pulsesPerTurn] using htplt)
  obtain ⟨tf1, tf2, tld, tdp⟩ := ts
  obtain ⟨of1, of2, opos⟩ := os
  simp only [thorConnected, Bool.and_eq_true] at hT
  obtain ⟨hT1, hT2⟩ := hT
  simp only [optoConnected, Bool.and_eq_true] at hO
  obtain ⟨hO1, hO2⟩ := hO
  refine ⟨?_, ?_, ?_, ?_, ?_⟩
  · simp [thorDegreeSet, thorConnected, hT1, hT2]
  · simp [thorDegreeSet, thorDegreeGet, thorConnected, thorReadDegree, hT1, hT2,
      qmod_eq_self _ _ hq0 hqlt]
  · simp [optoDegreeSet, optoConnected, hO1, hO2]
  · simp [optoDegreeSet, optoDegreeGet, optoUpdatePosition, optoConnected,
      hO1, hO2, hmod]
  · rw [htp, degreePerPulse, mul_one_div]

/-- Claim C8 witness: setting 370 degrees on connected stages commits and
reads back exactly 10.0 on the Thorlabs driver and on the OptoSigma driver
(4000 pulses times 0.0025). -/
theorem angle_normalization_witness :
    (thorDegreeSet ⟨true, true, 0, 0⟩ 370 true).last_degree = 10 ∧
    (optoDegreeGet (optoDegreeSet ⟨true, true, some 0⟩ 370 true)
        (HwRead.val (some (optoTargetPulses 370)))).1 = 10 := by
  have h := angle_normalization_amended 370 ⟨true, true, 0, 0⟩ ⟨true, true, some 0⟩ rfl rfl
  have hq : qmod 370 360 = 10 := by norm_num [qmod]
  have htp : optoTargetPulses 370 = 4000 := by
    norm_num [optoTargetPulses, qmod, degreePerPulse, maxDegree]
  constructor
  · rw [h.1, hq]
  · rw [h.2.2.2.1, htp]
    norm_num [degreePerPulse]

/-- Claim C9 counterexample: at excitation 532 nm and sample wavelength
545 nm the code computes exactly 6500000/14497 (about 448.37), which is not
within one decimal place (0.1) of the claimed approximate value 448.6. -/
theorem wavenumber_value_cex :
    wavenumber 532 545 = some (6500000 / 14497) ∧
    ¬ |(6500000 / 14497 : ℚ) - 4486 / 10| ≤ 1 / 10 := by
  constructor
  · norm_num [wavenumber]
  · norm_num [abs]

/-- Claim C9 (amended): the wavenumber label is
`(1/excitation - 1/sampleWavelength) * 1e7`, a caught `None` (not a raise)
when the sample wavelength is 0, and at excitation 532, sample 545 it is
approximately 448.4 (exactly 6500000/14497), not 448.6. -/
theorem wavenumber_formula_amended (e x : ℚ) (he : e ≠ 0) :
    wavenumber e 0 = none ∧
    (x ≠ 0 → wavenumber e x = some ((1 / e - 1 / x) * 10 ^ 7)) ∧
    ∃ v, wavenumber 532 545 = some v ∧ |v - 4484 / 10| < 1 / 10 := by
  refine ⟨by simp [wavenumber], fun hx => by simp [wavenumber, he, hx],
    6500000 / 14497, by norm_num [wavenumber], ?_⟩
  rw [abs_sub_lt_iff]
  norm_num

/-- Claim C9 witness: instantiation at excitation 532. -/
theorem wavenumber_formula_witness :
    wavenumber 532 0 = none ∧
    wavenumber 532 545 = some ((1 / 532 - 1 / 545) * 10 ^ 7) := by
  have h := wavenumber_formula_amended 532 545 (by norm_num)
  exact ⟨h.1, h.2.1 (by norm_num)⟩

/-- Claim C10: every value either degree getter returns lies in [0, 360).
For the OptoSigma getter this is unconditional (0.0 when disconnected or on a
failed read, else pulses mod 144000 times 0.0025); for the Thorlabs getter it
holds given the invariant that the cached `_last_degree` is in [0, 360), and
that invariant is preserved by the getter, the setter and `home`. -/
theorem degree_getter_range (os : OptoState) (r : HwRead (Option ℤ))
    (ts : ThorState) (rb mv hm : Bool) (a : ℚ)
    (hT : 0 ≤ ts.last_degree ∧ ts.last_degree < 360) :
    (0 ≤ (optoDegreeGet os r).1 ∧ (optoDegreeGet os r).1 < 360) ∧
    (0 ≤ (thorDegreeGet ts rb).1 ∧ (thorDegreeGet ts rb).1 < 360) ∧
    (0 ≤ (thorDegreeGet ts rb).2.last_degree ∧ (thorDegreeGet ts rb).2.last_degree < 360) ∧
    (0 ≤ (thorDegreeSet ts a mv).last_degree ∧ (thorDegreeSet ts a mv).last_degree < 360) ∧
    (0 ≤ (thorHome ts hm).last_degree ∧ (thorHome ts hm).last_degree < 360) := by
  have h0 : (0 : ℚ) < 360 := by norm_num
  have hq : ∀ b : ℚ, 0 ≤ qmod b 360 ∧ qmod b 360 < 360 :=
    fun b => ⟨qmod_nonneg b 360 h0, qmod_lt b 360 h0⟩
  have hopto : ∀ p : ℤ,
      0 ≤ ((p % pulsesPerTurn : ℤ) : ℚ) * degreePerPulse ∧
      ((p % pulsesPerTurn : ℤ) : ℚ) * degreePerPulse < 360 := by
    intro p
    have h1 : (0 : ℤ) ≤ p % pulsesPerTurn := Int.emod_nonneg p (by norm_num [pulsesPerTurn])
    have h2 : p % pulsesPerTurn < 144000 := Int.emod_lt_of_pos p (by norm_num [pulsesPerTurn])
    have h1q : (0 : ℚ) ≤ ((p % pulsesPerTurn : ℤ) : ℚ) := by exact_mod_cast h1
    have h2q : ((p % pulsesPerTurn : ℤ) : ℚ) < 144000 := by exact_mod_cast h2
    constructor
    · have : (0 : ℚ) < degreePerPulse := by norm_num [degreePerPulse]
      positivity
    · rw [degreePerPulse]
      nlinarith
  refine ⟨?_, ?_, ?_, ?_, ?_⟩
  · cases hc : optoConnected os
    · simp [optoDegreeGet, hc]
    · rcases hpos : (optoUpdatePosition os r).current_position with _ | p
      · simp [optoDegreeGet, hc, hpos]
      · simpa [optoDegreeGet, hc, hpos] using hopto p
  · cases hc : thorConnected ts
    · simpa [thorDegreeGet, hc] using hT
    · cases rb
      · simpa [thorDegreeGet, hc] using hT
      · simpa [thorDegreeGet, hc, thorReadDegree] using hq ts.device_position
  · cases hc : thorConnected ts
    · simpa [thorDegreeGet, hc] using hT
    · cases rb
      · simpa [thorDegreeGet, hc] using hT
      · simpa [thorDegreeGet, hc, thorReadDegree] using hq ts.device_position
  · cases hc : thorConnected ts
    · simpa [thorDegreeSet, hc] using hT
    · cases mv
      · simpa [thorDegreeSet, hc] using hT
      · simpa [thorDegreeSet, hc] using hq a
  · cases hc : thorConnected ts
    · simpa [thorHome, hc] using hT
    · cases hm
      · simpa [thorHome, hc] using hT
      · simp [thorHome, hc]

/-- Claim C10 witness: concrete stages; the Thorlabs invariant holds at the
initial cached angle 0. -/
theorem degree_getter_range_witness :
    0 ≤ (optoDegreeGet ⟨true, true, some 500⟩ (HwRead.val (some 700))).1 ∧
    (optoDegreeGet ⟨true, true, some 500⟩ (HwRead.val (some 700))).1 < 360 :=
  (degree_getter_range ⟨true, true, some 500⟩ (HwRead.val (some 700))
    ⟨true, true, 0, 123⟩ true true true 370 ⟨by norm_num, by norm_num⟩).1

theorem seqB_ok (a b : CtrlState → List Cmd × CtrlState × Bool) (s : CtrlState)
    (h : (a s).2.2 = true) :
    seqB a b s
      = ((a s).1 ++ (b ((a s).2.1)).1, (b ((a s).2.1)).2.1, (b ((a s).2.1)).2.2) := by
  unfold seqB
  simp [h]

theorem seqB_pres {α : Type} (g : CtrlState → α)
    (a b : CtrlState → List Cmd × CtrlState × Bool)
    (ha : ∀ s, g ((a s).2.1) = g s) (hb : ∀ s, g ((b s).2.1) = g s) :
    ∀ s, g ((seqB a b s).2.1) = g s := by
  intro s
  unfold seqB
  dsimp only
  split
  · rw [hb, ha]
  · rw [ha]

theorem seqB_trace (a b : CtrlState → List Cmd × CtrlState × Bool)
    (P : Cmd → Prop)
    (ha : ∀ s c, c ∈ (a s).1 → P c) (hb : ∀ s c, c ∈ (b s).1 → P c) :
    ∀ s c, c ∈ (seqB a b s).1 → P c := by
  intro s c hc
  unfold seqB at hc
  dsimp only at hc
  split at hc
  · rcases List.mem_append.mp hc with h | h
    · exact ha s c h
    · exact hb _ c h
  · exact ha s c hc

theorem gratingBlk_state (hw : Hw) (r : Request) (s : CtrlState) :
    (gratingBlk hw r s).2.1 = s ∨
    (gratingBlk hw r s).2.1 = { s with prev_grating := r.grating } := by
  unfold gratingBlk
  split
  · split
    · right; rfl
    · left; rfl
  · left; rfl

theorem wavelengthBlk_state (hw : Hw) (r : Request) (s : CtrlState) :
    (wavelengthBlk hw r s).2.1 = s ∨
    (wavelengthBlk hw r s).2.1
      = { s with prev_center_wavelength := some r.center_wavelength } := by
  unfold wavelengthBlk
  split
  · split
    · left; rfl
    · split
      · left; rfl
      · split
        · right; rfl
        · right; rfl
  · left; rfl

theorem slitBlk_state (hw : Hw) (r : Request) (s : CtrlState) :
    (slitBlk hw r s).2.1 = s ∨
    (slitBlk hw r s).2.1 = { s with prev_slit_position := some r.slit_position } := by
  unfold slitBlk
  split
  · split
    · right; rfl
    · left; rfl
  · left; rfl

theorem exposureBlk_state (hw : Hw) (r : Request) (s : CtrlState) :
    (exposureBlk hw r s).2.1 = s ∨
    (exposureBlk hw r s).2.1 = { s with prev_exposure := some r.exposure } := by
  unfold exposureBlk
  split
  · split
    · right; rfl
    · left; rfl
  · left; rfl

theorem gainBlk_state (hw : Hw) (r : Request) (s : CtrlState) :
    (gainBlk hw r s).2.1 = s ∨
    (gainBlk hw r s).2.1 = { s with prev_gain := some r.gain } := by
  unfold gainBlk
  split
  · split
    · right; rfl
    · left; rfl
  · left; rfl

theorem speedBlk_state (hw : Hw) (r : Request) (s : CtrlState) :
    (speedBlk hw r s).2.1 = s ∨
    (speedBlk hw r s).2.1 = { s with prev_speed := some r.speed } := by
  unfold speedBlk
  split
  · split
    · right; rfl
    · left; rfl
  · left; rfl

theorem rotationBlk_state (hw : Hw) (r : Request) (s : CtrlState) :
    (rotationBlk hw r s).2.1 = s ∨
    ∃ a ost1, r.rotation_angle = some a ∧
      (rotationBlk hw r s).2.1
        = { s with stage := some ost1, prev_rotation_angle := some a } := by
  unfold rotationBlk
  rcases hr : r.rotation_angle with _ | a
  · left; rfl
  · rcases hs : s.stage with _ | ost
    · left; rfl
    · dsimp only
      split
      · right
        exact ⟨a, _, rfl, rfl⟩
      · left; rfl

theorem finalBlk_state (hw : Hw) (s : CtrlState) : (finalBlk hw s).2.1 = s := by
  unfold finalBlk
  split <;> rfl

theorem gratingBlk_skip (hw : Hw) (r : Request) (s : CtrlState)
    (h : r.grating = s.prev_grating) : gratingBlk hw r s = ([], s, true) := by
  simp [gratingBlk, h]

theorem wavelengthBlk_skip (hw : Hw) (r : Request) (s : CtrlState)
    (h : some r.center_wavelength = s.prev_center_wavelength) :
    wavelengthBlk hw r s = ([], s, true) := by
  simp [wavelengthBlk, h]

theorem slitBlk_skip (hw : Hw) (r : Request) (s : CtrlState)
    (h : some r.slit_position = s.prev_slit_position) :
    slitBlk hw r s = ([], s, true) := by
  simp [slitBlk, h]

theorem exposureBlk_skip (hw : Hw) (r : Request) (s : CtrlState)
    (h : some r.exposure = s.prev_exposure) :
    exposureBlk hw r s = ([], s, true) := by
  simp [exposureBlk, h]

theorem gainBlk_skip (hw : Hw) (r : Request) (s : CtrlState)
    (h : some r.gain = s.prev_gain) : gainBlk hw r s = ([], s, true) := by
  simp [gainBlk, h]

theorem speedBlk_skip (hw : Hw) (r : Request) (s : CtrlState)
    (h : some r.speed = s.prev_speed) : speedBlk hw r s = ([], s, true) := by
  simp [speedBlk, h]

theorem rotationBlk_skip (hw : Hw) (r : Request) (s : CtrlState)
    (h : rotCond r s = false) : rotationBlk hw r s = ([], s, true) := by
  unfold rotationBlk
  unfold rotCond at h
  rcases hr : r.rotation_angle with _ | a
  · rfl
  · rcases hs : s.stage with _ | ost
    · rfl
    · rw [hr, hs] at h
      dsimp only at h ⊢
      rw [h]
      rfl

theorem gratingBlk_trace (hw : Hw) (r : Request) (s : CtrlState) :
    ∀ c ∈ (gratingBlk hw r s).1, isConnectCmd c = false := by
  intro c hc
  unfold gratingBlk at hc
  split at hc
  · split at hc <;> (simp at hc; subst hc; rfl)
  · simp at hc

theorem wavelengthBlk_trace (hw : Hw) (r : Request) (s : CtrlState) :
    ∀ c ∈ (wavelengthBlk hw r s).1, isConnectCmd c = false := by
  intro c hc
  unfold wavelengthBlk at hc
  split at hc
  · split at hc
    · simp at hc; subst hc; rfl
    · split at hc
      · simp at hc; rcases hc with rfl | rfl <;> rfl
      · split at hc <;> (simp at hc; rcases hc with rfl | rfl | rfl <;> rfl)
  · simp at hc

theorem slitBlk_trace (hw : Hw) (r : Request) (s : CtrlState) :
    ∀ c ∈ (slitBlk hw r s).1, isConnectCmd c = false := by
  intro c hc
  unfold slitBlk at hc
  split at hc
  · split at hc <;> (simp at hc; subst hc; rfl)
  · simp at hc

theorem exposureBlk_trace (hw : Hw) (r : Request) (s : CtrlState) :
    ∀ c ∈ (exposureBlk hw r s).1, isConnectCmd c = false := by
  intro c hc
  unfold exposureBlk at hc
  split at hc
  · split at hc <;> (simp at hc; subst hc; rfl)
  · simp at hc

theorem gainBlk_trace (hw : Hw) (r : Request) (s : CtrlState) :
    ∀ c ∈ (gainBlk hw r s).1, isConnectCmd c = false := by
  intro c hc
  unfold gainBlk at hc
  split at hc
  · split at hc <;> (simp at hc; subst hc; rfl)
  · simp at hc

theorem speedBlk_trace (hw : Hw) (r : Request) (s : CtrlState) :
    ∀ c ∈ (speedBlk hw r s).1, isConnectCmd c = false := by
  intro c hc
  unfold speedBlk at hc
  split at hc
  · split at hc <;> (simp at hc; subst hc; rfl)
  · simp at hc

theorem rotationBlk_trace (hw : Hw) (r : Request) (s : CtrlState) :
    ∀ c ∈ (rotationBlk hw r s).1, isConnectCmd c = false := by
  intro c hc
  unfold rotationBlk at hc
  split at hc
  · split at hc
    · simp at hc; subst hc; rfl
    · simp at hc
  · simp at hc

theorem finalBlk_trace (hw : Hw) (s : CtrlState) :
    ∀ c ∈ (finalBlk hw s).1, isConnectCmd c = false := by
  intro c hc
  unfold finalBlk at hc
  split at hc <;> (simp at hc; subst hc; rfl)

theorem configure_trace_no_connect (hw : Hw) (r : Request) :
    ∀ s c, c ∈ (configureForAcquisition hw r s).1 → isConnectCmd c = false := by
  unfold configureForAcquisition
  exact seqB_trace _ _ _ (fun s => gratingBlk_trace hw r s)
    (seqB_trace _ _ _ (fun s => wavelengthBlk_trace hw r s)
      (seqB_trace _ _ _ (fun s => slitBlk_trace hw r s)
        (seqB_trace _ _ _ (fun s => exposureBlk_trace hw r s)
          (seqB_trace _ _ _ (fun s => gainBlk_trace hw r s)
            (seqB_trace _ _ _ (fun s => speedBlk_trace hw r s)
              (seqB_trace _ _ _ (fun s => rotationBlk_trace hw r s)
                (fun s => finalBlk_trace hw s)))))))

theorem configure_pres_init (hw : Hw) (r : Request) :
    ∀ s, ((configureForAcquisition hw r s).2.1).is_initialized = s.is_initialized := by
  unfold configureForAcquisition
  refine seqB_pres _ _ _ (fun s => ?_) (seqB_pres _ _ _ (fun s => ?_)
    (seqB_pres _ _ _ (fun s => ?_) (seqB_pres _ _ _ (fun s => ?_)
      (seqB_pres _ _ _ (fun s => ?_) (seqB_pres _ _ _ (fun s => ?_)
        (seqB_pres _ _ _ (fun s => ?_) (fun s => ?_)))))))
  · rcases gratingBlk_state hw r s with h | h <;> rw [h]
  · rcases wavelengthBlk_state hw r s with h | h <;> rw [h]
  · rcases slitBlk_state hw r s with h | h <;> rw [h]
  · rcases exposureBlk_state hw r s with h | h <;> rw [h]
  · rcases gainBlk_state hw r s with h | h <;> rw [h]
  · rcases speedBlk_state hw r s with h | h <;> rw [h]
  · rcases rotationBlk_state hw r s with h | ⟨a, ost1, _, h⟩ <;> rw [h]
  · rw [finalBlk_state]

theorem ensure_noop (hw : Hw) (s : CtrlState) (h : s.is_initialized = true) :
    ensureInitialized hw s = ([], s, true) := by
  unfold ensureInitialized
  rw [if_pos h]

theorem ensure_result (hw : Hw) (s : CtrlState) :
    (ensureInitialized hw s).2.2 = true ∨
    ((ensureInitialized hw s).2.1).is_initialized = false := by
  unfold ensureInitialized
  dsimp only
  (repeat' split) <;> simp

/-- Claim C1 (amended): only a failure inside `_ensure_initialized` marks the
session uninitialized (so the next call re-runs the full connect); an SDK
call raising during configuration or acquisition after a successful
initialization leaves `_is_initialized` set — the next `acquire_spectrum`
issues no connect command at all and proceeds straight to configuration
diffing on the old session state. There is no Degraded marking on
acquisition-time failures. -/
theorem acquire_no_degrade_amended (hw : Hw) (s : CtrlState) (r : Request) :
    (s.is_initialized = true →
      ((acquireSpectrum hw s r).2.1).is_initialized = true ∧
      (acquireSpectrum hw s r).1.filter isConnectCmd = []) ∧
    ((ensureInitialized hw s).2.2 = false →
      ((ensureInitialized hw s).2.1).is_initialized = false ∧
      (acquireSpectrum hw s r).2.2 = false) := by
  constructor
  · intro h
    have he := ensure_noop hw s h
    have hcinit : ((configureForAcquisition hw r s).2.1).is_initialized = true := by
      rw [configure_pres_init hw r s, h]
    have hcfil : (configureForAcquisition hw r s).1.filter isConnectCmd = [] := by
      rw [List.filter_eq_nil_iff]
      intro c hc
      simp [configure_trace_no_connect hw r s c hc]
    unfold acquireSpectrum
    rw [he]
    dsimp only
    simp only [Bool.not_true, Bool.false_eq_true, if_false, List.nil_append]
    split
    · exact ⟨hcinit, hcfil⟩
    · split
      · exact ⟨hcinit, by simp [List.filter_append, hcfil, isConnectCmd]⟩
      · split
        · exact ⟨hcinit, by simp [List.filter_append, hcfil, isConnectCmd]⟩
        · split
          · exact ⟨hcinit, by simp [List.filter_append, hcfil, isConnectCmd]⟩
          · split
            · exact ⟨hcinit, by simp [List.filter_append, hcfil, isConnectCmd]⟩
            · exact ⟨hcinit, by simp [List.filter_append, hcfil, isConnectCmd]⟩
  · intro h
    refine ⟨?_, ?_⟩
    · rcases ensure_result hw s with h1 | h1
      · rw [h] at h1; exact absurd h1 (by simp)
      · exact h1
    · simp [acquireSpectrum, h]

/-- Claim C1 witness: on an already-initialized session every acquisition,
whatever the hardware does, keeps the initialized flag and issues no connect
command. -/
theorem acquire_no_degrade_witness :
    ((acquireSpectrum hwAllOk sInitOnly rqA).2.1).is_initialized = true ∧
    (acquireSpectrum hwAllOk sInitOnly rqA).1.filter isConnectCmd = [] :=
  (acquire_no_degrade_amended hwAllOk sInitOnly rqA).1 rfl

/-- Claim C1 counterexample: the first acquisition raises at
`acquisition_start` (after a successful full connect and configuration), yet
`_is_initialized` stays `True`; the second `acquire_spectrum` call performs no
device discovery, open or initialization at all — its first hardware command
is already the exposure reconfiguration — contradicting the claim that the
next call performs a full connect before any configuration diffing. -/
theorem acquire_no_reconnect_cex :
    (acquireSpectrum hwStartFails (ctrlInit false) rqA).2.2 = false ∧
    ((acquireSpectrum hwStartFails (ctrlInit false) rqA).2.1).is_initialized = true ∧
    ((acquireSpectrum hwAllOk (acquireSpectrum hwStartFails (ctrlInit false) rqA).2.1 rqB).1.filter
       isConnectCmd = []) ∧
    ((acquireSpectrum hwAllOk (acquireSpectrum hwStartFails (ctrlInit false) rqA).2.1 rqB).1.head?
       = some (Cmd.setExposureTime (2 * 1000))) := by
  refine ⟨?_, ?_, ?_, ?_⟩ <;>
    simp +decide only [acquireSpectrum, ensureInitialized, configureForAcquisition, seqB,
      gratingBlk, wavelengthBlk, slitBlk, exposureBlk, gainBlk, speedBlk,
      rotationBlk, finalBlk, ctrlInit, hwStartFails, hwAllOk, rqA, rqB, runSeq, openCmds,
      List.filter, isConnectCmd] <;> norm_num [isConnectCmd]

theorem configure_fail_grating (hw : Hw) (r : Request)
    (hfail : hw.ok (Cmd.setTurretGrating r.grating) = false) :
    ∀ s, ((configureForAcquisition hw r s).2.1).prev_grating = s.prev_grating := by
  unfold configureForAcquisition
  refine seqB_pres _ _ _ (fun s => ?_) (seqB_pres _ _ _ (fun s => ?_)
    (seqB_pres _ _ _ (fun s => ?_) (seqB_pres _ _ _ (fun s => ?_)
      (seqB_pres _ _ _ (fun s => ?_) (seqB_pres _ _ _ (fun s => ?_)
        (seqB_pres _ _ _ (fun s => ?_) (fun s => ?_)))))))
  · unfold gratingBlk
    split
    · split
      · simp_all
      · rfl
    · rfl
  · rcases wavelengthBlk_state hw r s with h | h <;> rw [h]
  · rcases slitBlk_state hw r s with h | h <;> rw [h]
  · rcases exposureBlk_state hw r s with h | h <;> rw [h]
  · rcases gainBlk_state hw r s with h | h <;> rw [h]
  · rcases speedBlk_state hw r s with h | h <;> rw [h]
  · rcases rotationBlk_state hw r s with h | ⟨a, ost1, _, h⟩ <;> rw [h]
  · rw [finalBlk_state]

theorem configure_fail_cw (hw : Hw) (r : Request)
    (hfail : hw.ok (Cmd.moveToTargetWavelength r.center_wavelength) = false ∨
      hw.ok (Cmd.setCenterWavelength r.center_wavelength) = false) :
    ∀ s, ((configureForAcquisition hw r s).2.1).prev_center_wavelength
      = s.prev_center_wavelength := by
  unfold configureForAcquisition
  refine seqB_pres _ _ _ (fun s => ?_) (seqB_pres _ _ _ (fun s => ?_)
    (seqB_pres _ _ _ (fun s => ?_) (seqB_pres _ _ _ (fun s => ?_)
      (seqB_pres _ _ _ (fun s => ?_) (seqB_pres _ _ _ (fun s => ?_)
        (seqB_pres _ _ _ (fun s => ?_) (fun s => ?_)))))))
  · rcases gratingBlk_state hw r s with h | h <;> rw [h]
  · unfold wavelengthBlk
    split
    · split
      · rfl
      · split
        · rfl
        · dsimp only
          split
          · rcases hfail with hf | hf <;> simp_all
          · rcases hfail with hf | hf <;> simp_all
    · rfl
  · rcases slitBlk_state hw r s with h | h <;> rw [h]
  · rcases exposureBlk_state hw r s with h | h <;> rw [h]
  · rcases gainBlk_state hw r s with h | h <;> rw [h]
  · rcases speedBlk_state hw r s with h | h <;> rw [h]
  · rcases rotationBlk_state hw r s with h | ⟨a, ost1, _, h⟩ <;> rw [h]
  · rw [finalBlk_state]

theorem configure_fail_slit (hw : Hw) (r : Request)
    (hfail : hw.ok (Cmd.setSlitPosition r.slit_position) = false) :
    ∀ s, ((configureForAcquisition hw r s).2.1).prev_slit_position
      = s.prev_slit_position := by
  unfold configureForAcquisition
  refine seqB_pres _ _ _ (fun s => ?_) (seqB_pres _ _ _ (fun s => ?_)
    (seqB_pres _ _ _ (fun s => ?_) (seqB_pres _ _ _ (fun s => ?_)
      (seqB_pres _ _ _ (fun s => ?_) (seqB_pres _ _ _ (fun s => ?_)
        (seqB_pres _ _ _ (fun s => ?_) (fun s => ?_)))))))
  · rcases gratingBlk_state hw r s with h | h <;> rw [h]
  · rcases wavelengthBlk_state hw r s with h | h <;> rw [h]
  · unfold slitBlk
    split
    · split
      · simp_all
      · rfl
    · rfl
  · rcases exposureBlk_state hw r s with h | h <;> rw [h]
  · rcases gainBlk_state hw r s with h | h <;> rw [h]
  · rcases speedBlk_state hw r s with h | h <;> rw [h]
  · rcases rotationBlk_state hw r s with h | ⟨a, ost1, _, h⟩ <;> rw [h]
  · rw [finalBlk_state]

theorem configure_fail_exposure (hw : Hw) (r : Request)
    (hfail : hw.ok (Cmd.setExposureTime (r.exposure * 1000)) = false) :
    ∀ s, ((configureForAcquisition hw r s).2.1).prev_exposure = s.prev_exposure := by
  unfold configureForAcquisition
  refine seqB_pres _ _ _ (fun s => ?_) (seqB_pres _ _ _ (fun s => ?_)
    (seqB_pres _ _ _ (fun s => ?_) (seqB_pres _ _ _ (fun s => ?_)
      (seqB_pres _ _ _ (fun s => ?_) (seqB_pres _ _ _ (fun s => ?_)
        (seqB_pres _ _ _ (fun s => ?_) (fun s => ?_)))))))
  · rcases gratingBlk_state hw r s with h | h <;> rw [h]
  · rcases wavelengthBlk_state hw r s with h | h <;> rw [h]
  · rcases slitBlk_state hw r s with h | h <;> rw [h]
  · unfold exposureBlk
    split
    · split
      · simp_all
      · rfl
    · rfl
  · rcases gainBlk_state hw r s with h | h <;> rw [h]
  · rcases speedBlk_state hw r s with h | h <;> rw [h]
  · rcases rotationBlk_state hw r s with h | ⟨a, ost1, _, h⟩ <;> rw [h]
  · rw [finalBlk_state]

theorem configure_fail_gain (hw : Hw) (r : Request)
    (hfail : hw.ok (Cmd.setGain r.gain) = false) :
    ∀ s, ((configureForAcquisition hw r s).2.1).prev_gain = s.prev_gain := by
  unfold configureForAcquisition
  refine seqB_pres _ _ _ (fun s => ?_) (seqB_pres _ _ _ (fun s => ?_)
    (seqB_pres _ _ _ (fun s => ?_) (seqB_pres _ _ _ (fun s => ?_)
      (seqB_pres _ _ _ (fun s => ?_) (seqB_pres _ _ _ (fun s => ?_)
        (seqB_pres _ _ _ (fun s => ?_) (fun s => ?_)))))))
  · rcases gratingBlk_state hw r s with h | h <;> rw [h]
  · rcases wavelengthBlk_state hw r s with h | h <;> rw [h]
  · rcases slitBlk_state hw r s with h | h <;> rw [h]
  · rcases exposureBlk_state hw r s with h | h <;> rw [h]
  · unfold gainBlk
    split
    · split
      · simp_all
      · rfl
    · rfl
  · rcases speedBlk_state hw r s with h | h <;> rw [h]
  · rcases rotationBlk_state hw r s with h | ⟨a, ost1, _, h⟩ <;> rw [h]
  · rw [finalBlk_state]

theorem configure_fail_speed (hw : Hw) (r : Request)
    (hfail : hw.ok (Cmd.setSpeed r.speed) = false) :
    ∀ s, ((configureForAcquisition hw r s).2.1).prev_speed = s.prev_speed := by
  unfold configureForAcquisition
  refine seqB_pres _ _ _ (fun s => ?_) (seqB_pres _ _ _ (fun s => ?_)
    (seqB_pres _ _ _ (fun s => ?_) (seqB_pres _ _ _ (fun s => ?_)
      (seqB_pres _ _ _ (fun s => ?_) (seqB_pres _ _ _ (fun s => ?_)
        (seqB_pres _ _ _ (fun s => ?_) (fun s => ?_)))))))
  · rcases gratingBlk_state hw r s with h | h <;> rw [h]
  · rcases wavelengthBlk_state hw r s with h | h <;> rw [h]
  · rcases slitBlk_state hw r s with h | h <;> rw [h]
  · rcases exposureBlk_state hw r s with h | h <;> rw [h]
  · rcases gainBlk_state hw r s with h | h <;> rw [h]
  · unfold speedBlk
    split
    · split
      · simp_all
      · rfl
    · rfl
  · rcases rotationBlk_state hw r s with h | ⟨a, ost1, _, h⟩ <;> rw [h]
  · rw [finalBlk_state]

/-- Claim C3 (amended): for grating, wavelength, slit position, exposure,
gain and speed the cached `prev_*` field is updated only after the
corresponding hardware command succeeds — if the command raises, the field is
unchanged. The rotation angle is the exception (see the counterexample):
`prev_rotation_angle` is committed even when the move fails, because the
OptoSigma degree setter swallows every exception; only the stage's own
`_current_position` cache is left unchanged on a failed move (last
conjunct). -/
theorem cache_commit_amended (hw : Hw) (r : Request) (s : CtrlState) :
    (hw.ok (Cmd.setTurretGrating r.grating) = false →
      ((configureForAcquisition hw r s).2.1).prev_grating = s.prev_grating) ∧
    (hw.ok (Cmd.moveToTargetWavelength r.center_wavelength) = false →
      ((configureForAcquisition hw r s).2.1).prev_center_wavelength
        = s.prev_center_wavelength) ∧
    (hw.ok (Cmd.setCenterWavelength r.center_wavelength) = false →
      ((configureForAcquisition hw r s).2.1).prev_center_wavelength
        = s.prev_center_wavelength) ∧
    (hw.ok (Cmd.setSlitPosition r.slit_position) = false →
      ((configureForAcquisition hw r s).2.1).prev_slit_position = s.prev_slit_position) ∧
    (hw.ok (Cmd.setExposureTime (r.exposure * 1000)) = false →
      ((configureForAcquisition hw r s).2.1).prev_exposure = s.prev_exposure) ∧
    (hw.ok (Cmd.setGain r.gain) = false →
      ((configureForAcquisition hw r s).2.1).prev_gain = s.prev_gain) ∧
    (hw.ok (Cmd.setSpeed r.speed) = false →
      ((configureForAcquisition hw r s).2.1).prev_speed = s.prev_speed) ∧
    (∀ ost a, (optoDegreeSet ost a false).current_position = ost.current_position) :=
  ⟨fun h => configure_fail_grating hw r h s,
   fun h => configure_fail_cw hw r (Or.inl h) s,
   fun h => configure_fail_cw hw r (Or.inr h) s,
   fun h => configure_fail_slit hw r h s,
   fun h => configure_fail_exposure hw r h s,
   fun h => configure_fail_gain hw r h s,
   fun h => configure_fail_speed hw r h s,
   fun ost a => by unfold optoDegreeSet; split <;> rfl⟩

/-- Claim C3 witness: with a hardware oracle failing exactly on `set_gain`,
configuring from a fresh controller leaves `prev_gain` untouched. -/
theorem cache_commit_witness :
    ((configureForAcquisition hwGainFails rqA (ctrlInit false)).2.1).prev_gain
      = (ctrlInit false).prev_gain :=
  (cache_commit_amended hwGainFails rqA (ctrlInit false)).2.2.2.2.2.1 rfl

/-- Claim C3 counterexample: the rotation move fails (the `stageMoveTo`
command raises inside the degree setter, which catches it), yet
`_configure_for_acquisition` commits `prev_rotation_angle := 90` and even
returns success, while the stage itself never moved
(`_current_position` still 0 pulses). -/
theorem rotation_cache_commit_cex :
    ((configureForAcquisition hwRotFails rqRot sRotCex).2.1).prev_rotation_angle
      = some 90 ∧
    ((configureForAcquisition hwRotFails rqRot sRotCex).2.1).stage
      = some ⟨true, true, some 0⟩ ∧
    (configureForAcquisition hwRotFails rqRot sRotCex).2.2 = true ∧
    hwRotFails.ok (Cmd.stageMoveTo (optoTargetPulses 90)) = false := by
  refine ⟨?_, ?_, ?_, rfl⟩ <;>
    simp +decide only [configureForAcquisition, seqB, gratingBlk, wavelengthBlk,
      slitBlk, exposureBlk, gainBlk, speedBlk, rotationBlk, finalBlk,
      optoDegreeSet, optoConnected, sRotCex, rqRot, hwRotFails]

theorem seqB_skipped (a b : CtrlState → List Cmd × CtrlState × Bool) (s : CtrlState)
    (h : a s = ([], s, true)) : seqB a b s = b s := by
  unfold seqB
  rw [h]
  simp

theorem seqB_ok_res (a b : CtrlState → List Cmd × CtrlState × Bool) (s : CtrlState)
    (h : (a s).2.2 = true) : (seqB a b s).2.2 = (b ((a s).2.1)).2.2 := by
  unfold seqB
  dsimp only
  rw [if_pos h]

theorem gratingBlk_ok (hw : Hw) (r : Request) (s : CtrlState)
    (h : hw.ok (Cmd.setTurretGrating r.grating) = true) :
    (gratingBlk hw r s).2.2 = true := by
  unfold gratingBlk
  split <;> rfl

theorem gratingBlk_commit (hw : Hw) (r : Request) (s : CtrlState)
    (h : hw.ok (Cmd.setTurretGrating r.grating) = true) :
    ((gratingBlk hw r s).2.1).prev_grating = r.grating := by
  unfold gratingBlk
  split
  · rfl
  · next hcond => exact (not_not.mp hcond).symm

theorem wavelengthBlk_ok (hw : Hw) (r : Request) (s : CtrlState)
    (h1 : hw.ok (Cmd.moveToTargetWavelength r.center_wavelength) = true)
    (h2 : hw.ok (Cmd.setCenterWavelength r.center_wavelength) = true)
    (h3 : hw.ok Cmd.setXAxisConversionType = true) :
    (wavelengthBlk hw r s).2.2 = true := by
  unfold wavelengthBlk
  split
  · simp [h1, h2, h3]
  · rfl

theorem wavelengthBlk_commit (hw : Hw) (r : Request) (s : CtrlState)
    (h1 : hw.ok (Cmd.moveToTargetWavelength r.center_wavelength) = true)
    (h2 : hw.ok (Cmd.setCenterWavelength r.center_wavelength) = true) :
    ((wavelengthBlk hw r s).2.1).prev_center_wavelength = some r.center_wavelength := by
  unfold wavelengthBlk
  split
  · simp only [h1, h2, Bool.not_true, Bool.false_eq_true, if_false]
    split <;> rfl
  · next hcond => exact (not_not.mp hcond).symm

theorem slitBlk_ok (hw : Hw) (r : Request) (s : CtrlState)
    (h : hw.ok (Cmd.setSlitPosition r.slit_position) = true) :
    (slitBlk hw r s).2.2 = true := by
  unfold slitBlk
  split <;> rfl

theorem slitBlk_commit (hw : Hw) (r : Request) (s : CtrlState)
    (h : hw.ok (Cmd.setSlitPosition r.slit_position) = true) :
    ((slitBlk hw r s).2.1).prev_slit_position = some r.slit_position := by
  unfold slitBlk
  split
  · rfl
  · next hcond => exact (not_not.mp hcond).symm

theorem exposureBlk_ok (hw : Hw) (r : Request) (s : CtrlState)
    (h : hw.ok (Cmd.setExposureTime (r.exposure * 1000)) = true) :
    (exposureBlk hw r s).2.2 = true := by
  unfold exposureBlk
  split <;> rfl

theorem exposureBlk_commit (hw : Hw) (r : Request) (s : CtrlState)
    (h : hw.ok (Cmd.setExposureTime (r.exposure * 1000)) = true) :
    ((exposureBlk hw r s).2.1).prev_exposure = some r.exposure := by
  unfold exposureBlk
  split
  · rfl
  · next hcond => exact (not_not.mp hcond).symm

theorem gainBlk_ok (hw : Hw) (r : Request) (s : CtrlState)
    (h : hw.ok (Cmd.setGain r.gain) = true) : (gainBlk hw r s).2.2 = true := by
  unfold gainBlk
  split <;> rfl

theorem gainBlk_commit (hw : Hw) (r : Request) (s : CtrlState)
    (h : hw.ok (Cmd.setGain r.gain) = true) :
    ((gainBlk hw r s).2.1).prev_gain = some r.gain := by
  unfold gainBlk
  split
  · rfl
  · next hcond => exact (not_not.mp hcond).symm

theorem speedBlk_ok (hw : Hw) (r : Request) (s : CtrlState)
    (h : hw.ok (Cmd.setSpeed r.speed) = true) : (speedBlk hw r s).2.2 = true := by
  unfold speedBlk
  split <;> rfl

theorem speedBlk_commit (hw : Hw) (r : Request) (s : CtrlState)
    (h : hw.ok (Cmd.setSpeed r.speed) = true) :
    ((speedBlk hw r s).2.1).prev_speed = some r.speed := by
  unfold speedBlk
  split
  · rfl
  · next hcond => exact (not_not.mp hcond).symm

theorem rotationBlk_ok (hw : Hw) (r : Request) (s : CtrlState) :
    (rotationBlk hw r s).2.2 = true := by
  unfold rotationBlk
  split
  · split <;> rfl
  · rfl

theorem rotationBlk_post (hw : Hw) (r : Request) (s : CtrlState) :
    rotCond r ((rotationBlk hw r s).2.1) = false := by
  rcases hr : r.rotation_angle with _ | a
  · simp [rotationBlk, rotCond, hr]
  · rcases hs : s.stage with _ | ost
    · simp [rotationBlk, rotCond, hr, hs]
    · by_cases h3 : some a = s.prev_rotation_angle
      · simp [rotationBlk, rotCond, hr, hs, ← h3]
      · cases hb1 : s.enable_rotation_stage
        · simp [rotationBlk, rotCond, hr, hs, hb1]
        · cases hb2 : optoConnected ost
          · simp [rotationBlk, rotCond, hr, hs, hb1, hb2]
          · simp [rotationBlk, rotCond, hr, hs, hb1, hb2, h3]

theorem finalBlk_ok (hw : Hw) (s : CtrlState)
    (h : hw.ok Cmd.getCurrentWavelength = true) :
    finalBlk hw s = ([Cmd.getCurrentWavelength], s, true) := by
  simp [finalBlk, h]

theorem seqB_estab_eq {α : Type} (g : CtrlState → α) (v : α)
    (a b : CtrlState → List Cmd × CtrlState × Bool)
    (ha : ∀ s, g ((a s).2.1) = v) (hb : ∀ s, g ((b s).2.1) = g s) :
    ∀ s, g ((seqB a b s).2.1) = v := by
  intro s
  unfold seqB
  dsimp only
  split
  · rw [hb]; exact ha s
  · exact ha s

theorem seqB_ok_eq {α : Type} (g : CtrlState → α) (v : α)
    (a b : CtrlState → List Cmd × CtrlState × Bool)
    (hsucc : ∀ s, (a s).2.2 = true) (hb : ∀ t, g ((b t).2.1) = v) :
    ∀ s, g ((seqB a b s).2.1) = v := by
  intro s
  unfold seqB
  dsimp only
  rw [if_pos (hsucc s)]
  exact hb _

theorem configure_commits (hw : Hw) (r : Request) (s : CtrlState)
    (hok : ∀ c, hw.ok c = true) :
    (configureForAcquisition hw r s).2.2 = true ∧
    ((configureForAcquisition hw r s).2.1).prev_grating = r.grating ∧
    ((configureForAcquisition hw r s).2.1).prev_center_wavelength
      = some r.center_wavelength ∧
    ((configureForAcquisition hw r s).2.1).prev_slit_position = some r.slit_position ∧
    ((configureForAcquisition hw r s).2.1).prev_exposure = some r.exposure ∧
    ((configureForAcquisition hw r s).2.1).prev_gain = some r.gain ∧
    ((configureForAcquisition hw r s).2.1).prev_speed = some r.speed ∧
    rotCond r ((configureForAcquisition hw r s).2.1) = false := by
  have pG : ∀ {α : Type} (g : CtrlState → α),
      (∀ t, g { t with prev_grating := r.grating } = g t) →
      ∀ t, g ((gratingBlk hw r t).2.1) = g t := fun g hg t => by
    rcases gratingBlk_state hw r t with h | h <;> rw [h]
    exact hg t
  have pW : ∀ {α : Type} (g : CtrlState → α),
      (∀ t, g { t with prev_center_wavelength := some r.center_wavelength } = g t) →
      ∀ t, g ((wavelengthBlk hw r t).2.1) = g t := fun g hg t => by
    rcases wavelengthBlk_state hw r t with h | h <;> rw [h]
    exact hg t
  have pSL : ∀ {α : Type} (g : CtrlState → α),
      (∀ t, g { t with prev_slit_position := some r.slit_position } = g t) →
      ∀ t, g ((slitBlk hw r t).2.1) = g t := fun g hg t => by
    rcases slitBlk_state hw r t with h | h <;> rw [h]
    exact hg t
  have pE : ∀ {α : Type} (g : CtrlState → α),
      (∀ t, g { t with prev_exposure := some r.exposure } = g t) →
      ∀ t, g ((exposureBlk hw r t).2.1) = g t := fun g hg t => by
    rcases exposureBlk_state hw r t with h | h <;> rw [h]
    exact hg t
  have pGA : ∀ {α : Type} (g : CtrlState → α),
      (∀ t, g { t with prev_gain := some r.gain } = g t) →
      ∀ t, g ((gainBlk hw r t).2.1) = g t := fun g hg t => by
    rcases gainBlk_state hw r t with h | h <;> rw [h]
    exact hg t
  have pSP : ∀ {α : Type} (g : CtrlState → α),
      (∀ t, g { t with prev_speed := some r.speed } = g t) →
      ∀ t, g ((speedBlk hw r t).2.1) = g t := fun g hg t => by
    rcases speedBlk_state hw r t with h | h <;> rw [h]
    exact hg t
  have pR : ∀ {α : Type} (g : CtrlState → α),
      (∀ t a ost1, g { t with stage := some ost1, prev_rotation_angle := some a } = g t) →
      ∀ t, g ((rotationBlk hw r t).2.1) = g t := fun g hg t => by
    rcases rotationBlk_state hw r t with h | ⟨a, ost1, _, h⟩ <;> rw [h]
    exact hg t a ost1
  have pF : ∀ {α : Type} (g : CtrlState → α),
      ∀ t, g ((finalBlk hw t).2.1) = g t := fun g t => by rw [finalBlk_state]
  refine ⟨?_, ?_, ?_, ?_, ?_, ?_, ?_, ?_⟩
  · unfold configureForAcquisition
    rw [seqB_ok_res _ _ _ (gratingBlk_ok hw r s (hok _)),
        seqB_ok_res _ _ _ (wavelengthBlk_ok hw r _ (hok _) (hok _) (hok _)),
        seqB_ok_res _ _ _ (slitBlk_ok hw r _ (hok _)),
        seqB_ok_res _ _ _ (exposureBlk_ok hw r _ (hok _)),
        seqB_ok_res _ _ _ (gainBlk_ok hw r _ (hok _)),
        seqB_ok_res _ _ _ (speedBlk_ok hw r _ (hok _)),
        seqB_ok_res _ _ _ (rotationBlk_ok hw r _),
        finalBlk_ok hw _ (hok _)]
  · unfold configureForAcquisition
    exact seqB_estab_eq (fun t => t.prev_grating) r.grating _ _
      (fun t => gratingBlk_commit hw r t (hok _))
      (seqB_pres (fun t => t.prev_grating) _ _ (pW _ (fun t => rfl))
        (seqB_pres (fun t => t.prev_grating) _ _ (pSL _ (fun t => rfl))
          (seqB_pres (fun t => t.prev_grating) _ _ (pE _ (fun t => rfl))
            (seqB_pres (fun t => t.prev_grating) _ _ (pGA _ (fun t => rfl))
              (seqB_pres (fun t => t.prev_grating) _ _ (pSP _ (fun t => rfl))
                (seqB_pres (fun t => t.prev_grating) _ _ (pR _ (fun t a ost1 => rfl))
                  (pF _))))))) s
  · unfold configureForAcquisition
    exact seqB_ok_eq (fun t => t.prev_center_wavelength) (some r.center_wavelength) _ _
      (fun t => gratingBlk_ok hw r t (hok _))
      (seqB_estab_eq (fun t => t.prev_center_wavelength) (some r.center_wavelength) _ _
        (fun t => wavelengthBlk_commit hw r t (hok _) (hok _))
        (seqB_pres (fun t => t.prev_center_wavelength) _ _ (pSL _ (fun t => rfl))
          (seqB_pres (fun t => t.prev_center_wavelength) _ _ (pE _ (fun t => rfl))
            (seqB_pres (fun t => t.prev_center_wavelength) _ _ (pGA _ (fun t => rfl))
              (seqB_pres (fun t => t.prev_center_wavelength) _ _ (pSP _ (fun t => rfl))
                (seqB_pres (fun t => t.prev_center_wavelength) _ _
                  (pR _ (fun t a ost1 => rfl)) (pF _))))))) s
  · unfold configureForAcquisition
    exact seqB_ok_eq (fun t => t.prev_slit_position) (some r.slit_position) _ _
      (fun t => gratingBlk_ok hw r t (hok _))
      (seqB_ok_eq (fun t => t.prev_slit_position) (some r.slit_position) _ _
        (fun t => wavelengthBlk_ok hw r t (hok _) (hok _) (hok _))
        (seqB_estab_eq (fun t => t.prev_slit_position) (some r.slit_position) _ _
          (fun t => slitBlk_commit hw r t (hok _))
          (seqB_pres (fun t => t.prev_slit_position) _ _ (pE _ (fun t => rfl))
            (seqB_pres (fun t => t.prev_slit_position) _ _ (pGA _ (fun t => rfl))
              (seqB_pres (fun t => t.prev_slit_position) _ _ (pSP _ (fun t => rfl))
                (seqB_pres (fun t => t.prev_slit_position) _ _
                  (pR _ (fun t a ost1 => rfl)) (pF _))))))) s
  · unfold configureForAcquisition
    exact seqB_ok_eq (fun t => t.prev_exposure) (some r.exposure) _ _
      (fun t => gratingBlk_ok hw r t (hok _))
      (seqB_ok_eq (fun t => t.prev_exposure) (some r.exposure) _ _
        (fun t => wavelengthBlk_ok hw r t (hok _) (hok _) (hok _))
        (seqB_ok_eq (fun t => t.prev_exposure) (some r.exposure) _ _
          (fun t => slitBlk_ok hw r t (hok _))
          (seqB_estab_eq (fun t => t.prev_exposure) (some r.exposure) _ _
            (fun t => exposureBlk_commit hw r t (hok _))
            (seqB_pres (fun t => t.prev_exposure) _ _ (pGA _ (fun t => rfl))
              (seqB_pres (fun t => t.prev_exposure) _ _ (pSP _ (fun t => rfl))
                (seqB_pres (fun t => t.prev_exposure) _ _
                  (pR _ (fun t a ost1 => rfl)) (pF _))))))) s
  · unfold configureForAcquisition
    exact seqB_ok_eq (fun t => t.prev_gain) (some r.gain) _ _
      (fun t => gratingBlk_ok hw r t (hok _))
      (seqB_ok_eq (fun t => t.prev_gain) (some r.gain) _ _
        (fun t => wavelengthBlk_ok hw r t (hok _) (hok _) (hok _))
        (seqB_ok_eq (fun t => t.prev_gain) (some r.gain) _ _
          (fun t => slitBlk_ok hw r t (hok _))
          (seqB_ok_eq (fun t => t.prev_gain) (some r.gain) _ _
            (fun t => exposureBlk_ok hw r t (hok _))
            (seqB_estab_eq (fun t => t.prev_gain) (some r.gain) _ _
              (fun t => gainBlk_commit hw r t (hok _))
              (seqB_pres (fun t => t.prev_gain) _ _ (pSP _ (fun t => rfl))
                (seqB_pres (fun t => t.prev_gain) _ _
                  (pR _ (fun t a ost1 => rfl)) (pF _))))))) s
  · unfold configureForAcquisition
    exact seqB_ok_eq (fun t => t.prev_speed) (some r.speed) _ _
      (fun t => gratingBlk_ok hw r t (hok _))
      (seqB_ok_eq (fun t => t.prev_speed) (some r.speed) _ _
        (fun t => wavelengthBlk_ok hw r t (hok _) (hok _) (hok _))
        (seqB_ok_eq (fun t => t.prev_speed) (some r.speed) _ _
          (fun t => slitBlk_ok hw r t (hok _))
          (seqB_ok_eq (fun t => t.prev_speed) (some r.speed) _ _
            (fun t => exposureBlk_ok hw r t (hok _))
            (seqB_ok_eq (fun t => t.prev_speed) (some r.speed) _ _
              (fun t => gainBlk_ok hw r t (hok _))
              (seqB_estab_eq (fun t => t.prev_speed) (some r.speed) _ _
                (fun t => speedBlk_commit hw r t (hok _))
                (seqB_pres (fun t => t.prev_speed) _ _
                  (pR _ (fun t a ost1 => rfl)) (pF _))))))) s
  · unfold configureForAcquisition
    exact seqB_ok_eq (fun t => rotCond r t) false _ _
      (fun t => gratingBlk_ok hw r t (hok _))
      (seqB_ok_eq (fun t => rotCond r t) false _ _
        (fun t => wavelengthBlk_ok hw r t (hok _) (hok _) (hok _))
        (seqB_ok_eq (fun t => rotCond r t) false _ _
          (fun t => slitBlk_ok hw r t (hok _))
          (seqB_ok_eq (fun t => rotCond r t) false _ _
            (fun t => exposureBlk_ok hw r t (hok _))
            (seqB_ok_eq (fun t => rotCond r t) false _ _
              (fun t => gainBlk_ok hw r t (hok _))
              (seqB_ok_eq (fun t => rotCond r t) false _ _
                (fun t => speedBlk_ok hw r t (hok _))
                (seqB_estab_eq (fun t => rotCond r t) false _ _
                  (fun t => rotationBlk_post hw r t) (pF _))))))) s

theorem configure_noop (hw : Hw) (r : Request) (s : CtrlState)
    (h1 : r.grating = s.prev_grating)
    (h2 : some r.center_wavelength = s.prev_center_wavelength)
    (h3 : some r.slit_position = s.prev_slit_position)
    (h4 : some r.exposure = s.prev_exposure)
    (h5 : some r.gain = s.prev_gain)
    (h6 : some r.speed = s.prev_speed)
    (h7 : rotCond r s = false)
    (h8 : hw.ok Cmd.getCurrentWavelength = true) :
    configureForAcquisition hw r s = ([Cmd.getCurrentWavelength], s, true) := by
  unfold configureForAcquisition
  rw [seqB_skipped _ _ _ (gratingBlk_skip hw r s h1),
      seqB_skipped _ _ _ (wavelengthBlk_skip hw r s h2),
      seqB_skipped _ _ _ (slitBlk_skip hw r s h3),
      seqB_skipped _ _ _ (exposureBlk_skip hw r s h4),
      seqB_skipped _ _ _ (gainBlk_skip hw r s h5),
      seqB_skipped _ _ _ (speedBlk_skip hw r s h6),
      seqB_skipped _ _ _ (rotationBlk_skip hw r s h7),
      finalBlk_ok hw s h8]

theorem exposureBlk_run (hw : Hw) (r : Request) (s : CtrlState)
    (hne : some r.exposure ≠ s.prev_exposure)
    (h : hw.ok (Cmd.setExposureTime (r.exposure * 1000)) = true) :
    exposureBlk hw r s = ([Cmd.setExposureTime (r.exposure * 1000)],
      { s with prev_exposure := some r.exposure }, true) := by
  unfold exposureBlk
  rw [if_pos hne]
  split <;> simp_all

theorem configure_exposure_only (hw : Hw) (r : Request) (s : CtrlState) (e2 : ℚ)
    (h1 : r.grating = s.prev_grating)
    (h2 : some r.center_wavelength = s.prev_center_wavelength)
    (h3 : some r.slit_position = s.prev_slit_position)
    (h5 : some r.gain = s.prev_gain)
    (h6 : some r.speed = s.prev_speed)
    (h7 : rotCond r s = false)
    (hne : (some e2 : Option ℚ) ≠ s.prev_exposure)
    (hokE : hw.ok (Cmd.setExposureTime (e2 * 1000)) = true)
    (h8 : hw.ok Cmd.getCurrentWavelength = true) :
    configureForAcquisition hw { r with exposure := e2 } s
      = ([Cmd.setExposureTime (e2 * 1000), Cmd.getCurrentWavelength],
         { s with prev_exposure := some e2 }, true) := by
  unfold configureForAcquisition
  rw [seqB_skipped _ _ _ (gratingBlk_skip hw { r with exposure := e2 } s h1),
      seqB_skipped _ _ _ (wavelengthBlk_skip hw { r with exposure := e2 } s h2),
      seqB_skipped _ _ _ (slitBlk_skip hw { r with exposure := e2 } s h3)]
  have hexp := exposureBlk_run hw { r with exposure := e2 } s hne hokE
  have hsucc : (exposureBlk hw { r with exposure := e2 } s).2.2 = true := by
    rw [hexp]
  rw [seqB_ok _ _ _ hsucc, hexp]
  dsimp only
  rw [seqB_skipped _ _ _ (gainBlk_skip hw { r with exposure := e2 }
        { s with prev_exposure := some e2 } h5),
      seqB_skipped _ _ _ (speedBlk_skip hw { r with exposure := e2 }
        { s with prev_exposure := some e2 } h6),
      seqB_skipped _ _ _ (rotationBlk_skip hw { r with exposure := e2 }
        { s with prev_exposure := some e2 } h7),
      finalBlk_ok hw { s with prev_exposure := some e2 } h8]
  rfl

/-- Claim C4: configuration is minimal with respect to the cache. After a
request has been applied with all hardware commands succeeding, re-issuing
the identical request issues no set-command at all, and a request differing
only in exposure issues exactly the one `set_exposure_time` command (with
the seconds-to-milliseconds scaling at the command boundary). -/
theorem configure_diff_minimal (hw : Hw) (s : CtrlState) (r : Request) (e2 : ℚ)
    (hok : ∀ c, hw.ok c = true) (hne : e2 ≠ r.exposure) :
    ((configureForAcquisition hw r ((configureForAcquisition hw r s).2.1)).1.filter
        isSetCmd = []) ∧
    ((configureForAcquisition hw { r with exposure := e2 }
        ((configureForAcquisition hw r s).2.1)).1.filter isSetCmd
      = [Cmd.setExposureTime (e2 * 1000)]) := by
  obtain ⟨-, hg, hcw, hsl, hexp, hga, hsp, hrot⟩ := configure_commits hw r s hok
  constructor
  · rw [configure_noop hw r _ hg.symm hcw.symm hsl.symm hexp.symm hga.symm hsp.symm
      hrot (hok _)]
    rfl
  · rw [configure_exposure_only hw r _ e2 hg.symm hcw.symm hsl.symm hga.symm hsp.symm
      hrot
      (by intro hc
          rw [hexp] at hc
          exact hne (Option.some_injective _ hc))
      (hok _) (hok _)]
    rfl

/-- Claim C4 witness: concrete instantiation — request `rqA` applied twice
from a fresh controller gives an empty set-command diff, and changing only
the exposure to 2 s issues exactly `set_exposure_time (2 * 1000)`. -/
theorem configure_diff_minimal_witness :
    ((configureForAcquisition hwAllOk rqA
        ((configureForAcquisition hwAllOk rqA (ctrlInit false)).2.1)).1.filter
        isSetCmd = []) ∧
    ((configureForAcquisition hwAllOk { rqA with exposure := 2 }
        ((configureForAcquisition hwAllOk rqA (ctrlInit false)).2.1)).1.filter isSetCmd
      = [Cmd.setExposureTime (2 * 1000)]) :=
  configure_diff_minimal hwAllOk (ctrlInit false) rqA 2 (fun _ => rfl) (by norm_num [rqA])

/-- Decomposition of `shutdown`: the trace is the (possibly empty)
rotation-stage close followed by the straight-line run of
`ccd.close`, `mono.close`, `dm.stop`, and the propagated result is that of
the straight-line run. -/
theorem shutdown_parts (hw : Hw) (s : CtrlState)
    (hccd : s.ccd_present = true) (hmono : s.mono_present = true)
    (hop : s.devices_opened = true) (hinit : s.is_initialized = true) :
    ((shutdown hw s).1 = (runSeq hw [Cmd.ccdClose, Cmd.monoClose, Cmd.dmStop]).1 ∨
     (shutdown hw s).1
       = Cmd.stageDisconnect :: (runSeq hw [Cmd.ccdClose, Cmd.monoClose, Cmd.dmStop]).1) ∧
    (shutdown hw s).2.2 = (runSeq hw [Cmd.ccdClose, Cmd.monoClose, Cmd.dmStop]).2 := by
  unfold shutdown
  rcases hst : s.stage with _ | ost
  · constructor
    · left
      simp [hst, hccd, hmono, hop, hinit]
    · simp [hst, hccd, hmono, hop, hinit]
  · cases hen : s.enable_rotation_stage
    · constructor
      · left
        simp [hst, hen, hccd, hmono, hop, hinit]
      · simp [hst, hen, hccd, hmono, hop, hinit]
    · cases hctl : ost.has_controller
      · constructor
        · left
          simp [hst, hen, hctl, hccd, hmono, hop, hinit]
        · simp [hst, hen, hctl, hccd, hmono, hop, hinit]
      · constructor
        · right
          simp [hst, hen, hctl, hccd, hmono, hop, hinit]
        · simp [hst, hen, hctl, hccd, hmono, hop, hinit]

/-- Claim C5 (amended): only the rotation-stage close is guarded (the
OptoSigma `disconnect` swallows its own errors, so it can never block the
rest); the detector, monochromator and transport closes are sequential and
unguarded — a raise in `ccd.close` propagates and skips both `mono.close`
and `dm.stop`; a raise in `mono.close` propagates and skips `dm.stop`; only
when all three succeed does `shutdown` complete. -/
theorem shutdown_guarding_amended (hw : Hw) (s : CtrlState)
    (hccd : s.ccd_present = true) (hmono : s.mono_present = true)
    (hop : s.devices_opened = true) (hinit : s.is_initialized = true) :
    (hw.ok Cmd.ccdClose = false →
      (shutdown hw s).2.2 = false ∧
      Cmd.monoClose ∉ (shutdown hw s).1 ∧ Cmd.dmStop ∉ (shutdown hw s).1) ∧
    (hw.ok Cmd.ccdClose = true → hw.ok Cmd.monoClose = false →
      (shutdown hw s).2.2 = false ∧ Cmd.dmStop ∉ (shutdown hw s).1) ∧
    (hw.ok Cmd.ccdClose = true → hw.ok Cmd.monoClose = true →
      hw.ok Cmd.dmStop = false → (shutdown hw s).2.2 = false) ∧
    (hw.ok Cmd.ccdClose = true → hw.ok Cmd.monoClose = true →
      hw.ok Cmd.dmStop = true → (shutdown hw s).2.2 = true) := by
  obtain ⟨htr, hres⟩ := shutdown_parts hw s hccd hmono hop hinit
  refine ⟨fun hf => ?_, fun h1 hf => ?_, fun h1 h2 hf => ?_, fun h1 h2 h3 => ?_⟩
  · have hrun : runSeq hw [Cmd.ccdClose, Cmd.monoClose, Cmd.dmStop]
        = ([Cmd.ccdClose], false) := by
      simp [runSeq, hf]
    refine ⟨by rw [hres, hrun], ?_, ?_⟩ <;>
      rcases htr with h | h <;> rw [h, hrun] <;> decide
  · have hrun : runSeq hw [Cmd.ccdClose, Cmd.monoClose, Cmd.dmStop]
        = ([Cmd.ccdClose, Cmd.monoClose], false) := by
      simp [runSeq, h1, hf]
    refine ⟨by rw [hres, hrun], ?_⟩
    rcases htr with h | h <;> rw [h, hrun] <;> decide
  · have hrun : runSeq hw [Cmd.ccdClose, Cmd.monoClose, Cmd.dmStop]
        = ([Cmd.ccdClose, Cmd.monoClose, Cmd.dmStop], false) := by
      simp [runSeq, h1, h2, hf]
    rw [hres, hrun]
  · have hrun : runSeq hw [Cmd.ccdClose, Cmd.monoClose, Cmd.dmStop]
        = ([Cmd.ccdClose, Cmd.monoClose, Cmd.dmStop], true) := by
      simp [runSeq, h1, h2, h3]
    rw [hres, hrun]

/-- Claim C5 witness: with `ccd.close` raising on a fully-opened session,
shutdown fails and neither `mono.close` nor `dm.stop` is attempted. -/
theorem shutdown_guarding_witness :
    (shutdown hwCcdCloseFails sFullDev).2.2 = false ∧
    Cmd.monoClose ∉ (shutdown hwCcdCloseFails sFullDev).1 ∧
    Cmd.dmStop ∉ (shutdown hwCcdCloseFails sFullDev).1 :=
  (shutdown_guarding_amended hwCcdCloseFails sFullDev rfl rfl rfl rfl).1 rfl

/-- Claim C5 counterexample: on a fully-opened session where `ccd.close`
raises, the shutdown trace stops at `[stageDisconnect, ccdClose]`, the
exception propagates (result `false`), and neither the monochromator close
nor the transport stop is ever attempted — the closes are not independently
guarded. -/
theorem shutdown_unguarded_cex :
    (shutdown hwCcdCloseFails sFullDev).1 = [Cmd.stageDisconnect, Cmd.ccdClose] ∧
    (shutdown hwCcdCloseFails sFullDev).2.2 = false ∧
    Cmd.monoClose ∉ (shutdown hwCcdCloseFails sFullDev).1 ∧
    Cmd.dmStop ∉ (shutdown hwCcdCloseFails sFullDev).1 := by
  refine ⟨rfl, rfl, ?_, ?_⟩ <;> decide

/-- Claim C6 (amended): with every device present and every close
succeeding, `shutdown` closes the rotation stage FIRST, then the detector,
then the monochromator, and stops the transport session last. -/
theorem shutdown_order_amended (hw : Hw) (s : CtrlState) (ost : OptoState)
    (hstage : s.stage = some ost) (hen : s.enable_rotation_stage = true)
    (hctl : ost.has_controller = true)
    (hccd : s.ccd_present = true) (hmono : s.mono_present = true)
    (hop : s.devices_opened = true) (hinit : s.is_initialized = true)
    (hok : ∀ c, hw.ok c = true) :
    (shutdown hw s).1
      = [Cmd.stageDisconnect, Cmd.ccdClose, Cmd.monoClose, Cmd.dmStop] := by
  unfold shutdown
  simp [hstage, hen, hctl, hccd, hmono, hop, hinit, runSeq, hok]

/-- Claim C6 witness: the concrete fully-opened session shuts down in the
order rotation stage, detector, monochromator, transport. -/
theorem shutdown_order_witness :
    (shutdown hwAllOk sFullDev).1
      = [Cmd.stageDisconnect, Cmd.ccdClose, Cmd.monoClose, Cmd.dmStop] :=
  shutdown_order_amended hwAllOk sFullDev ⟨true, true, some 0⟩ rfl rfl rfl rfl rfl rfl
    rfl (fun _ => rfl)

/-- Claim C6 counterexample: the actual shutdown order places the rotation
stage first, not third — the trace differs from the order the claim states
(detector, monochromator, rotation stage, transport). -/
theorem shutdown_order_cex :
    (shutdown hwAllOk sFullDev).1
      = [Cmd.stageDisconnect, Cmd.ccdClose, Cmd.monoClose, Cmd.dmStop] ∧
    [Cmd.stageDisconnect, Cmd.ccdClose, Cmd.monoClose, Cmd.dmStop]
      ≠ [Cmd.ccdClose, Cmd.monoClose, Cmd.stageDisconnect, Cmd.dmStop] := by
  constructor
  · rfl
  · decide
